import Mathlib

/-!
# Verification of the image-processing pipeline (effect-demo)

A shallow embedding of the "traditional" (non-Effect) image-processing
service of the repository:

* `src/types.ts` — domain types, error classes, `SIZE_CONFIGS`;
* `src/processing/image-processor.ts` — `ImageProcessor` (resize, optimize,
  cleanup, `calculateScaledDimensions`);
* `src/storage/file-storage.ts`, `src/storage/s3-storage.ts`,
  `src/storage/cdn-publisher.ts`, `src/storage/metadata-storage.ts` —
  the storage backends with their retry loops and deletes;
* `src/services/image-service.ts` — `ImageService.processImage`, the
  pipeline orchestrator with its manual rollback logic.

Modelling conventions:

* JavaScript numbers used by the dimension math are modelled as `ℤ`
  inputs with exact rational (`ℚ`) intermediate arithmetic;
  `Math.round x` is `⌊x + 1/2⌋` (JS rounds half toward +∞).
* The filesystem (temp dir, local file storage, and the directory that
  simulates S3) is one set of path strings, as in the source where all
  three backends write through `fs` under distinct base paths.
* Nondeterminism (injected failures, simulated network failures,
  `Math.random`) is resolved by an explicit environment `Env` giving the
  outcome of each fallible call; a `some e` entry is the error the call
  throws, `none` means the call succeeds.
* The service is executed by Node's type stripping (per the README there
  is no type-checking build step), so runtime JavaScript scoping applies:
  in `processImage` the `const variants` binding lives inside the `try`
  block, and the rollback code in the `catch` block that reads `variants`
  (lines 470 and 483 of the service) throws a `ReferenceError`, which the
  per-rollback `try/catch` records as a rollback error.
-/

set_option maxHeartbeats 1000000

namespace EffectDemo

/-- Error values, mirroring the error classes of `src/types.ts` plus the
runtime errors that `fs` calls and out-of-scope references produce.
`cause` fields mirror the optional `cause` property. -/
inductive Err where
  | validationError (message : String) (field : Option String)
  | processingError (message : String) (stage : Option String) (cause : Option Err)
  | storageError (message : String) (location : Option String) (cause : Option Err)
  | databaseError (message : String) (cause : Option Err)
  | networkError (message : String) (retryable : Bool) (cause : Option Err)
  | resourceError (message : String) (resourceType : Option String) (cause : Option Err)
  | fsError (code : String) (path : String)
  | referenceError (name : String)

/-- `ImageSize` from `src/types.ts`. -/
inductive ImageSize where
  | thumbnail | small | medium | large | original
  deriving Repr, DecidableEq

/-- The string key used for an `ImageSize` (JS object keys / file names). -/
def ImageSize.name : ImageSize → String
  | .thumbnail => "thumbnail"
  | .small => "small"
  | .medium => "medium"
  | .large => "large"
  | .original => "original"

/-- `ImageDimensions` from `src/types.ts`; JS numbers carried as `ℤ`. -/
structure ImageDimensions where
  width : Int
  height : Int
  deriving Repr, DecidableEq

/-- `SIZE_CONFIGS` from `src/types.ts`. -/
def SIZE_CONFIGS : ImageSize → ImageDimensions
  | .thumbnail => ⟨150, 150⟩
  | .small => ⟨480, 480⟩
  | .medium => ⟨1024, 1024⟩
  | .large => ⟨2048, 2048⟩
  | .original => ⟨4096, 4096⟩

/-- JavaScript `Math.round`: round half toward positive infinity. -/
def mathRound (q : ℚ) : Int := ⌊q + 1 / 2⌋

/-- `ImageProcessor.calculateScaledDimensions`
(`src/processing/image-processor.ts` lines 249–270): contain-fit of the
original dimensions into the target, preserving aspect ratio and fitting
on the longer axis. -/
def calculateScaledDimensions (original target : ImageDimensions) : ImageDimensions :=
  let aspectRatio : ℚ := (original.width : ℚ) / (original.height : ℚ)
  let targetAspectRatio : ℚ := (target.width : ℚ) / (target.height : ℚ)
  if targetAspectRatio < aspectRatio then
    -- Original is wider, fit to width
    let width := min original.width target.width
    { width := width, height := mathRound ((width : ℚ) / aspectRatio) }
  else
    -- Original is taller (or equal ratio), fit to height
    let height := min original.height target.height
    { width := mathRound ((height : ℚ) * aspectRatio), height := height }

/-- `ImageVariant` from `src/types.ts`: `filePath` is a required field
(populated when the variant is created); `s3Url` and `cdnUrl` are the
optional object-store and edge handles, enriched later in the pipeline. -/
structure ImageVariant where
  size : ImageSize
  dimensions : ImageDimensions
  fileSize : Int
  filePath : String
  s3Url : Option String := none
  cdnUrl : Option String := none

/-- `ImageMetadata` from `src/types.ts`, as assembled by `processImage`
step 7.  `sizes` is the JS object `Record<ImageSize, ImageVariant>`,
kept as an association list in key-insertion order.  The wall-clock
`uploadedAt` / `processedAt` timestamps are not modelled. -/
structure ImageMetadata where
  id : String
  originalName : String
  mimeType : String
  fileSize : Int
  dimensions : ImageDimensions
  sizes : List (ImageSize × ImageVariant)
  tags : List String
  userId : String

/-! ## Filesystem model

All backends of the demo write through `fs` to local directories:
the processor's temp dir `./data/temp`, the `FileStorage` base
`./data/files`, and the simulated-S3 base `./data/s3`.  The filesystem is
the set of existing file paths (`path.join` normalises away the leading
`./`).  Failure injection for `fs.unlink` on an existing path comes from
the environment; unlinking a missing path deterministically fails with
`ENOENT`. -/

/-- Temp-file path for a variant: `path.join('./data/temp', id + '-' + size + '.jpg')`. -/
def tempFilePath (imageId : String) (size : ImageSize) : String :=
  "data/temp/" ++ imageId ++ "-" ++ size.name ++ ".jpg"

/-- `FileStorage.getFilePath`: `path.join('./data/files', id + '.jpg')`. -/
def fileStoragePath (id : String) : String :=
  "data/files/" ++ id ++ ".jpg"

/-- The S3 object key used by the pipeline: `images/{imageId}/{size}.jpg`. -/
def s3Key (imageId : String) (size : ImageSize) : String :=
  "images/" ++ imageId ++ "/" ++ size.name ++ ".jpg"

/-- Path of an S3 object on disk: `path.join('./data/s3', key)`. -/
def s3ObjectPath (imageId : String) (size : ImageSize) : String :=
  "data/s3/" ++ s3Key imageId size

/-- The S3 URL returned by `S3Storage.uploadFile`: `s3://{basePath}/{key}`. -/
def s3UrlFor (imageId : String) (size : ImageSize) : String :=
  "s3://./data/s3/" ++ s3Key imageId size

/-- The CDN URL returned by `CDNPublisher.publishFile`: `{cdnBaseUrl}/{key}`. -/
def cdnUrlFor (imageId : String) (size : ImageSize) : String :=
  "https://cdn.example.com/" ++ s3Key imageId size

/-- A filesystem: the list of existing paths (no duplicates are ever
created, `fs.writeFile` overwrites in place). -/
abbrev FS := List String

/-- `fs.writeFile`: creates the path or overwrites the existing file. -/
def fsWrite (fs : FS) (p : String) : FS :=
  if p ∈ fs then fs else fs ++ [p]

/-- Per-call failure injection for the whole pipeline run.  Each field
resolves one fallible call of the source: `none`/`false` means the call
succeeds, `some e` means it throws `e`.  Backend calls that internally
retry (`saveFile`, `uploadFile`, `publishFile`) are resolved at the
call boundary: the error is whatever the backend finally threw after its
own retry loop (the retry loop itself is modelled separately by
`retryExec`). -/
structure Env where
  /-- Dimensions produced by `ImageProcessor.extractDimensions` (random in the source). -/
  dims : ImageDimensions
  /-- Outcome of `resizeSingle` for each size (injected/random failures; a
  failed task has not written its temp file). -/
  resizeErr : ImageSize → Option Err
  /-- Outcome of the `fs.writeFile` that saves the original to temp. -/
  origWriteErr : Option Err
  /-- Outcome of `fs.unlink` on an existing path (non-`ENOENT` failure). -/
  unlinkErr : String → Option Err
  /-- Outcome of `ImageProcessor.optimize` for each variant's size. -/
  optimizeErr : ImageSize → Option Err
  /-- Outcome of `FileStorage.saveFile` for the original. -/
  fileSaveErr : Option Err
  /-- Outcome of `S3Storage.uploadFile` for each variant. -/
  s3UploadErr : ImageSize → Option Err
  /-- Outcome of `CDNPublisher.publishFile` for each variant. -/
  cdnPublishErr : ImageSize → Option Err
  /-- `config.shouldFailMetadata` (checked before the cache is updated). -/
  metaInjectFail : Bool
  /-- Outcome of `MetadataStorage.persist` (after the cache is updated). -/
  metaPersistErr : Option Err

/-- `fs.unlink`: removes an existing path (unless the environment makes
this call fail), fails with `ENOENT` on a missing path. -/
def fsUnlink (env : Env) (fs : FS) (p : String) : Except Err FS :=
  if p ∈ fs then
    match env.unlinkErr p with
    | some e => .error e
    | none => .ok (fs.erase p)
  else
    .error (.fsError "ENOENT" p)

/-! ## Retry executor

`FileStorage.saveFile`/`readFile`, `S3Storage.uploadFile` and
`CDNPublisher.publishFile` all contain the same loop
(`for (let attempt = 0; attempt <= this.maxRetries; attempt++)`): try the
operation, and on an error that the backend's classifier deems retryable
wait `retryDelayMs * 2^attempt` and try again while `attempt <
maxRetries`; otherwise break and throw the last error wrapped with
`maxRetries + 1` as the attempt count.  `op n` is the outcome of the
`(n+1)`-th attempt. -/

/-- Result of one retry-loop execution: final outcome (the unwrapped last
error on failure), number of attempts performed, and the computed
backoff delays in order. -/
structure RetryResult (E A : Type) where
  result : Except E A
  attemptsMade : Nat
  delays : List Nat

/-- The retry loop from attempt number `attempt` on. -/
def retryGo (op : Nat → Except E A) (isRetryable : E → Bool) (maxRetries base : Nat)
    (attempt : Nat) (delays : List Nat) : RetryResult E A :=
  match op attempt with
  | .ok a => ⟨.ok a, attempt + 1, delays⟩
  | .error e =>
    if h : isRetryable e = true ∧ attempt < maxRetries then
      retryGo op isRetryable maxRetries base (attempt + 1) (delays ++ [base * 2 ^ attempt])
    else
      ⟨.error e, attempt + 1, delays⟩
termination_by maxRetries - attempt
decreasing_by exact Nat.sub_lt_sub_left h.2 (Nat.lt_succ_self attempt)

/-- `Execute(operation, classify)`: the shared retry-with-backoff loop of
the three storage backends (maxRetries and base delay are the backend's
configuration; e.g. 3 and 100 for `FileStorage`/`S3Storage`, 5 and 200
for `CDNPublisher`). -/
def retryExec (op : Nat → Except E A) (isRetryable : E → Bool)
    (maxRetries base : Nat) : RetryResult E A :=
  retryGo op isRetryable maxRetries base 0 []

/-- `S3Storage`'s classifier (line 81): retry exactly the `NetworkError`s. -/
def s3Retryable : Err → Bool
  | .networkError _ _ _ => true
  | _ => false

/-- `FileStorage`/`CDNPublisher`'s classifier: a `NetworkError` whose
`retryable` flag is set. -/
def networkRetryable : Err → Bool
  | .networkError _ r _ => r
  | _ => false

/-- `FileStorage.saveFile`'s wrapping of the loop's outcome
(`src/storage/file-storage.ts` lines 192–222): on failure throw
`StorageError('Failed to save file {id} after {maxRetries+1} attempts',
lastError)`.  (The source passes the cause positionally in the
constructor's `location` slot; it is kept in the `cause` slot here.) -/
def saveFileRetried (op : Nat → Except Err Unit) (id : String) : Except Err Unit :=
  let r := retryExec op networkRetryable 3 100
  match r.result with
  | .ok a => .ok a
  | .error e =>
    .error (.storageError ("Failed to save file " ++ id ++ " after " ++ toString (3 + 1) ++ " attempts")
      none (some e))

/-! ## Storage backend operations (call-boundary granularity) -/

/-- The `message` property of an error object. -/
def Err.message : Err → String
  | .validationError m _ => m
  | .processingError m _ _ => m
  | .storageError m _ _ => m
  | .databaseError m _ => m
  | .networkError m _ _ => m
  | .resourceError m _ _ => m
  | .fsError code p => code ++ ": " ++ p
  | .referenceError n => n ++ " is not defined"

/-- The `code` property a JS error object may carry (`fs` errors do;
other errors yield `undefined`). -/
def Err.code : Err → Option String
  | .fsError c _ => some c
  | _ => none

namespace FileStorage

/-- `FileStorage.deleteFile` (`src/storage/file-storage.ts` lines
275–287): `fs.unlink`; an `error.code === 'ENOENT'` failure (file
already absent) is ignored and reported as success; any other failure is
wrapped in a `StorageError`.  (The source passes the cause positionally
in the constructor's `location` slot; it is kept in the `cause` slot
here.) -/
def deleteFile (env : Env) (fs : FS) (id : String) : FS × Except Err Unit :=
  match fsUnlink env fs (fileStoragePath id) with
  | .ok fs' => (fs', .ok ())
  | .error e =>
    if e.code = some "ENOENT" then (fs, .ok ())
    else (fs, .error (.storageError ("Failed to delete file " ++ id) none (some e)))

end FileStorage

namespace S3Storage

/-- `S3Storage.deleteFile` (`src/storage/s3-storage.ts` lines 107–120):
`fs.unlink` of the object's path; `error.code === 'ENOENT'` (key already
absent) is ignored and reported as success. -/
def deleteFile (env : Env) (fs : FS) (imageId : String) (size : ImageSize) : FS × Except Err Unit :=
  match fsUnlink env fs (s3ObjectPath imageId size) with
  | .ok fs' => (fs', .ok ())
  | .error e =>
    if e.code = some "ENOENT" then (fs, .ok ())
    else (fs, .error (.storageError ("Failed to delete from S3: " ++ s3Key imageId size) (some "s3") (some e)))

/-- One `S3Storage.uploadFile` call as the pipeline sees it: either the
environment makes the call fail (with whatever the backend finally
threw), or the call reads the variant's temp file, writes the object
under `./data/s3` and returns the `s3://` URL. -/
def uploadFile (env : Env) (imageId : String) (fs : FS) (v : ImageVariant) :
    Except Err (FS × ImageVariant) :=
  match env.s3UploadErr v.size with
  | some e => .error e
  | none =>
    if v.filePath ∈ fs then
      .ok (fsWrite fs (s3ObjectPath imageId v.size), { v with s3Url := some (s3UrlFor imageId v.size) })
    else
      .error (.storageError ("Failed to upload to S3 after " ++ toString (3 + 1) ++ " attempts")
        (some "s3") (some (.fsError "ENOENT" v.filePath)))

end S3Storage

namespace CDNPublisher

/-- `CDNPublisher.invalidate` (`src/storage/cdn-publisher.ts` lines
86–91): sleeps and logs; it performs no deletion and never throws. -/
def invalidate : Except Err Unit := .ok ()

end CDNPublisher

namespace MetadataStorage

/-- JS `Map.set`: replace the value under an existing key in place, or
append a new entry. -/
def metaSet (meta : List (String × ImageMetadata)) (id : String) (m : ImageMetadata) :
    List (String × ImageMetadata) :=
  if meta.any (fun p => p.1 = id) then
    meta.map (fun p => if p.1 = id then (id, m) else p)
  else
    meta ++ [(id, m)]

/-- JS `Map.get`: the record stored under `id`, if any. -/
def metaGet (meta : List (String × ImageMetadata)) (id : String) : Option ImageMetadata :=
  (meta.find? (fun p => p.1 = id)).map Prod.snd

/-- `MetadataStorage.save` (`src/storage/metadata-storage.ts` lines
58–75): the injected failure is checked first; otherwise the cache is
updated and then persisted — a persist failure is wrapped in a
`DatabaseError` but the cache keeps the entry. -/
def save (env : Env) (meta : List (String × ImageMetadata)) (m : ImageMetadata) :
    List (String × ImageMetadata) × Except Err Unit :=
  if env.metaInjectFail then
    (meta, .error (.databaseError "Simulated metadata save failure" none))
  else
    let meta' := metaSet meta m.id m
    match env.metaPersistErr with
    | some e => (meta', .error (.databaseError ("Failed to save metadata for image " ++ m.id) (some e)))
    | none => (meta', .ok ())

end MetadataStorage

/-! ## ImageProcessor operations -/

/-- `validateImageDimensions` (`src/validation.ts`): dimensions must lie
within [100, 8000]. -/
def validateImageDimensions (width height : Int) : Except Err Unit :=
  if width < 100 ∨ height < 100 then
    .error (.validationError "Image too small. Minimum dimensions: 100x100" (some "dimensions"))
  else if width > 8000 ∨ height > 8000 then
    .error (.validationError "Image too large. Maximum dimensions: 8000x8000" (some "dimensions"))
  else
    .ok ()

/-- `ImageProcessor.extractDimensions`: produces the (randomly simulated)
source dimensions, validated. -/
def extractDimensions (env : Env) : Except Err ImageDimensions :=
  match validateImageDimensions env.dims.width env.dims.height with
  | .error e => .error e
  | .ok _ => .ok env.dims

/-- The fixed size classes resized in parallel
(`const sizes: ImageSize[] = ['thumbnail', 'small', 'medium', 'large']`). -/
def resizeSizes : List ImageSize := [.thumbnail, .small, .medium, .large]

/-- The variant a successful `resizeSingle` task returns: dimensions from
`calculateScaledDimensions`, simulated file size
`Math.floor(len * (scaledWidth / originalWidth) * 0.7)`, file path in the
temp dir. -/
def resizeVariant (fileLen : Int) (size : ImageSize)
    (originalDimensions : ImageDimensions) (imageId : String) : ImageVariant :=
  let targetDimensions := SIZE_CONFIGS size
  let scaledDimensions := calculateScaledDimensions originalDimensions targetDimensions
  let resizedFileSize : Int :=
    ⌊(fileLen : ℚ) * ((scaledDimensions.width : ℚ) / (originalDimensions.width : ℚ)) * (7 / 10)⌋
  { size := size, dimensions := scaledDimensions, fileSize := resizedFileSize,
    filePath := tempFilePath imageId size }

/-- `ImageProcessor.resizeSingle`: one resize task.  On success the task
has written its temp file and yields its variant. -/
def resizeSingle (env : Env) (fileLen : Int) (size : ImageSize)
    (originalDimensions : ImageDimensions) (imageId : String) : Except Err ImageVariant :=
  match env.resizeErr size with
  | some e => .error e
  | none => .ok (resizeVariant fileLen size originalDimensions imageId)

/-- The per-file loop of `ImageProcessor.cleanupFiles`: unlink each path,
collecting (not aborting on) the errors. -/
def cleanupPass (env : Env) (fs : FS) (paths : List String) : FS × List Err :=
  paths.foldl
    (fun acc p =>
      match fsUnlink env acc.1 p with
      | .ok fs' => (fs', acc.2)
      | .error e => (acc.1, acc.2 ++ [e]))
    (fs, [])

/-- `ImageProcessor.cleanupFiles` (`src/processing/image-processor.ts`
lines 226–247): unlink every path; if any unlink failed, throw a
`ResourceError` counting the failures and wrapping the first one. -/
def cleanupFiles (env : Env) (fs : FS) (paths : List String) : FS × Except Err Unit :=
  match cleanupPass env fs paths with
  | (fs', []) => (fs', .ok ())
  | (fs', e :: rest) =>
    (fs', .error (.resourceError
      ("Failed to cleanup " ++ toString (e :: rest).length ++ " temp files")
      (some "temp-file") (some e)))

/-- The `${f.size}: ${f.error.message}` list joined with `', '` in the
aggregated resize error. -/
def resizeErrorMessages (failed : List (ImageSize × Err)) : String :=
  String.intercalate ", " (failed.map (fun f => f.1.name ++ ": " ++ f.2.message))

/-- The `succeeded` list collected from the settled resize tasks, in
task order. -/
def succeededVariants (env : Env) (fileLen : Int) (originalDimensions : ImageDimensions)
    (imageId : String) : List ImageVariant :=
  resizeSizes.filterMap (fun s => (resizeSingle env fileLen s originalDimensions imageId).toOption)

/-- The `failed` list collected from the settled resize tasks:
`{ size, error }` for each rejected task, in task order. -/
def failedResizes (env : Env) (fileLen : Int) (originalDimensions : ImageDimensions)
    (imageId : String) : List (ImageSize × Err) :=
  resizeSizes.filterMap (fun s =>
    match resizeSingle env fileLen s originalDimensions imageId with
    | .error e => some (s, e)
    | .ok _ => none)

/-- The `tempFiles` list: the paths the fulfilled tasks wrote. -/
def resizeTempFiles (env : Env) (fileLen : Int) (originalDimensions : ImageDimensions)
    (imageId : String) : List String :=
  (succeededVariants env fileLen originalDimensions imageId).map ImageVariant.filePath

/-- The filesystem after the parallel tasks have settled: each fulfilled
task has written its temp file. -/
def resizeWrittenFS (env : Env) (fileLen : Int) (originalDimensions : ImageDimensions)
    (imageId : String) (fs0 : FS) : FS :=
  (succeededVariants env fileLen originalDimensions imageId).foldl
    (fun fs v => fsWrite fs v.filePath) fs0

/-- `ImageProcessor.resizeToAllSizes` (`src/processing/image-processor.ts`
lines 71–141): run one resize task per size class, collect fulfilled and
rejected outcomes; if any task failed, clean up the successful tasks'
temp files and throw an aggregated `ProcessingError` naming the failed
sizes and wrapping the first underlying cause (if the cleanup itself
throws, that error propagates instead); if all succeeded, add the
`original` variant, write it to temp, and return the full variant list
in key-insertion order. -/
def resizeToAllSizes (env : Env) (fileLen : Int) (originalDimensions : ImageDimensions)
    (imageId : String) (fs0 : FS) : FS × Except Err (List ImageVariant) :=
  let succeeded := succeededVariants env fileLen originalDimensions imageId
  let failed := failedResizes env fileLen originalDimensions imageId
  let tempFiles := resizeTempFiles env fileLen originalDimensions imageId
  let fs1 := resizeWrittenFS env fileLen originalDimensions imageId fs0
  match failed with
  | [] =>
    let origVariant : ImageVariant :=
      { size := .original, dimensions := originalDimensions, fileSize := fileLen,
        filePath := tempFilePath imageId .original }
    match env.origWriteErr with
    | some e => (fs1, .error e)
    | none => (fsWrite fs1 origVariant.filePath, .ok (succeeded ++ [origVariant]))
  | f :: _ =>
    match cleanupFiles env fs1 tempFiles with
    | (fs2, .error ce) => (fs2, .error ce)
    | (fs2, .ok _) =>
      (fs2, .error (.processingError
        ("Failed to resize " ++ toString failed.length ++ "/" ++ toString resizeSizes.length
          ++ " sizes: " ++ resizeErrorMessages failed)
        (some "resize") (some f.2)))

/-- `ImageProcessor.optimize` for one variant: fails only by injection
(the environment); it rewrites nothing observable. -/
def optimize (env : Env) (size : ImageSize) : Except Err Unit :=
  match env.optimizeErr size with
  | some e => .error e
  | none => .ok ()

/-! ## The pipeline orchestrator — `ImageService.processImage`

(`src/services/image-service.ts` lines 323–523.)  The outcome of one run
records the returned value or thrown error, the final filesystem and
metadata cache, whether the catch handler ran and which rollback errors
it collected, the optimization warnings, and — for the handle-ordering
invariant — a snapshot of the variant list after the initial resize and
after every single per-variant handle assignment. -/

/-- Validated upload input (`validateUploadInput`'s result); the file is
carried by its byte length. -/
structure UploadInput where
  fileLen : Int
  originalName : String
  mimeType : String
  userId : String
  tags : List String

/-- Everything observable about one `processImage` run. -/
structure RunResult where
  result : Except Err ImageMetadata
  fs : FS
  meta : List (String × ImageMetadata)
  rollbackRan : Bool
  rollbackErrors : List Err
  optimizeWarnings : List ImageSize
  variantTrace : List (List ImageVariant)

/-- The booleans (and temp-file list) `processImage` tracks for rollback. -/
structure SagaFlags where
  tempFilesCreated : List String
  fileStorageSaved : Bool
  s3Uploaded : Bool
  cdnPublished : Bool

/-- Step 5's loop: upload each variant to S3 in order, setting
`variant.s3Url` after each successful call; the first failure aborts the
loop and is wrapped as `StorageError('Failed to upload to S3', 's3',
error)`.  Returns the filesystem, the (partially) updated variant list,
the snapshots taken after each assignment, and the wrapped error if any. -/
def s3UploadLoop (env : Env) (imageId : String) :
    FS → List ImageVariant → List ImageVariant → List (List ImageVariant) →
    FS × List ImageVariant × List (List ImageVariant) × Option Err
  | fs, done, [], snaps => (fs, done, snaps, none)
  | fs, done, v :: rest, snaps =>
    match S3Storage.uploadFile env imageId fs v with
    | .error e =>
      (fs, done ++ v :: rest, snaps, some (.storageError "Failed to upload to S3" (some "s3") (some e)))
    | .ok (fs', v') =>
      s3UploadLoop env imageId fs' (done ++ [v']) rest (snaps ++ [done ++ v' :: rest])

/-- Step 6's loop: publish each variant that has an `s3Url`
(`if (!variant.s3Url) continue`), setting `variant.cdnUrl` after each
successful call; the first failure aborts the loop and is wrapped as
`StorageError('Failed to publish to CDN', 'cdn', error)`. -/
def cdnPublishLoop (env : Env) (imageId : String) :
    List ImageVariant → List ImageVariant → List (List ImageVariant) →
    List ImageVariant × List (List ImageVariant) × Option Err
  | done, [], snaps => (done, snaps, none)
  | done, v :: rest, snaps =>
    match v.s3Url with
    | none => cdnPublishLoop env imageId (done ++ [v]) rest snaps
    | some _ =>
      match env.cdnPublishErr v.size with
      | some e =>
        (done ++ v :: rest, snaps, some (.storageError "Failed to publish to CDN" (some "cdn") (some e)))
      | none =>
        let v' := { v with cdnUrl := some (cdnUrlFor imageId v.size) }
        cdnPublishLoop env imageId (done ++ [v']) rest (snaps ++ [done ++ v' :: rest])

/-- The catch handler's rollback sequence (lines 456–522).  The CDN and
S3 rollback loops read `variants`, a `const` scoped to the `try` block
and therefore not in scope here; under the type-stripping runtime each
of those loops throws `ReferenceError: variants is not defined`, which
its surrounding `try/catch` pushes onto `rollbackErrors` — so no CDN
invalidation and no S3 delete is ever performed.  The file-storage
delete (rollback 3) and the temp-file cleanup (rollback 4, whose errors
are only warned about) do run. -/
def rollback (env : Env) (imageId : String) (fs : FS) (flags : SagaFlags) : FS × List Err :=
  let errs1 : List Err := if flags.cdnPublished then [.referenceError "variants"] else []
  let errs2 := errs1 ++ (if flags.s3Uploaded then [.referenceError "variants"] else [])
  let step3 :=
    if flags.fileStorageSaved then
      match FileStorage.deleteFile env fs (imageId ++ "-original") with
      | (fs', .ok _) => (fs', errs2)
      | (fs', .error e) => (fs', errs2 ++ [e])
    else (fs, errs2)
  let fs4 :=
    if flags.tempFilesCreated.length > 0 then (cleanupFiles env step3.1 flags.tempFilesCreated).1
    else step3.1
  (fs4, step3.2)

/-- `ImageService.processImage`: validate → extract dimensions → resize
(parallel) → optimize (best effort) → save original to file storage →
upload all variants to S3 → publish to CDN → save metadata → clean up
temp files (best effort); any thrown error reaches the single catch
handler, which runs the rollback sequence and re-throws the original
error. -/
def processImage (env : Env) (input : UploadInput) (imageId : String)
    (fs0 : FS) (meta0 : List (String × ImageMetadata)) : RunResult :=
  -- Step 2: extract dimensions
  match extractDimensions env with
  | .error e =>
    let r := rollback env imageId fs0 ⟨[], false, false, false⟩
    ⟨.error e, r.1, meta0, true, r.2, [], []⟩
  | .ok dimensions =>
  -- Step 3: resize to all sizes (failure reaches the catch handler with
  -- `tempFilesCreated` still empty — it is assigned only after success)
  match resizeToAllSizes env input.fileLen dimensions imageId fs0 with
  | (fs1, .error e) =>
    let r := rollback env imageId fs1 ⟨[], false, false, false⟩
    ⟨.error e, r.1, meta0, true, r.2, [], []⟩
  | (fs1, .ok variants) =>
  let tempFilesCreated := variants.map ImageVariant.filePath
  -- Step 4: optimize each variant; individual failures are warned about
  -- and swallowed
  let optimizeWarnings := variants.filterMap
    (fun v => match optimize env v.size with | .error _ => some v.size | .ok _ => none)
  -- Step 5: save the original to local file storage
  match env.fileSaveErr with
  | some e =>
    let err : Err := .storageError "Failed to save to file storage" (some "file") (some e)
    let r := rollback env imageId fs1 ⟨tempFilesCreated, false, false, false⟩
    ⟨.error err, r.1, meta0, true, r.2, optimizeWarnings, [variants]⟩
  | none =>
  let fs2 := fsWrite fs1 (fileStoragePath (imageId ++ "-original"))
  -- Step 6: upload all variants to S3
  match s3UploadLoop env imageId fs2 [] variants [variants] with
  | (fs3, _variants2, snaps2, some err) =>
    let r := rollback env imageId fs3 ⟨tempFilesCreated, true, false, false⟩
    ⟨.error err, r.1, meta0, true, r.2, optimizeWarnings, snaps2⟩
  | (fs3, variants2, snaps2, none) =>
  -- Step 7: publish to CDN
  match cdnPublishLoop env imageId [] variants2 snaps2 with
  | (_variants3, snaps3, some err) =>
    let r := rollback env imageId fs3 ⟨tempFilesCreated, true, true, false⟩
    ⟨.error err, r.1, meta0, true, r.2, optimizeWarnings, snaps3⟩
  | (variants3, snaps3, none) =>
  -- Step 8: save metadata
  let metadata : ImageMetadata :=
    { id := imageId, originalName := input.originalName, mimeType := input.mimeType,
      fileSize := input.fileLen, dimensions := dimensions,
      sizes := variants3.map (fun v => (v.size, v)), tags := input.tags, userId := input.userId }
  match MetadataStorage.save env meta0 metadata with
  | (meta1, .error e) =>
    let err : Err := .databaseError "Failed to save metadata" (some e)
    let r := rollback env imageId fs3 ⟨tempFilesCreated, true, true, true⟩
    ⟨.error err, r.1, meta1, true, r.2, optimizeWarnings, snaps3⟩
  | (meta1, .ok _) =>
  -- Step 9: clean up temp files (best effort; errors only warned about)
  let fs4 := (cleanupFiles env fs3 tempFilesCreated).1
  ⟨.ok metadata, fs4, meta1, false, [], optimizeWarnings, snaps3⟩

/-- Derived view: the `result` component of `processImage`, computed on its
own.  The returned/thrown value depends only on steps 2–8; the rollback and
temp-file cleanup never touch it. -/
def processResult (env : Env) (input : UploadInput) (imageId : String)
    (fs0 : FS) (meta0 : List (String × ImageMetadata)) : Except Err ImageMetadata :=
  match extractDimensions env with
  | .error e => .error e
  | .ok dimensions =>
  match resizeToAllSizes env input.fileLen dimensions imageId fs0 with
  | (_, .error e) => .error e
  | (fs1, .ok variants) =>
  match env.fileSaveErr with
  | some e => .error (.storageError "Failed to save to file storage" (some "file") (some e))
  | none =>
  match s3UploadLoop env imageId (fsWrite fs1 (fileStoragePath (imageId ++ "-original")))
      [] variants [variants] with
  | (_, _, _, some err) => .error err
  | (_, variants2, snaps2, none) =>
  match cdnPublishLoop env imageId [] variants2 snaps2 with
  | (_, _, some err) => .error err
  | (variants3, _, none) =>
  let metadata : ImageMetadata :=
    { id := imageId, originalName := input.originalName, mimeType := input.mimeType,
      fileSize := input.fileLen, dimensions := dimensions,
      sizes := variants3.map (fun v => (v.size, v)), tags := input.tags, userId := input.userId }
  match MetadataStorage.save env meta0 metadata with
  | (_, .error e) => .error (.databaseError "Failed to save metadata" (some e))
  | (_, .ok _) => .ok metadata

/-- The error `new NetworkError('Simulated network failure')` that the
backends' failure injection throws (`retryable` defaults to `true`). -/
def simulatedNetworkFailure : Err := .networkError "Simulated network failure" true none

/-- Derived view of the environment: the size classes whose resize task
fulfils. -/
def succeededSizes (env : Env) : List ImageSize :=
  resizeSizes.filter (fun s => (env.resizeErr s).isNone)

/-- Derived view of the environment: the unlink errors the cleanup pass
over the successful tasks' temp files will collect, in order. -/
def cleanupErrors (env : Env) (imageId : String) : List Err :=
  (succeededSizes env).filterMap (fun s => env.unlinkErr (tempFilePath imageId s))

/-- The environment of a run in which every fallible call succeeds. -/
def envOk (dims : ImageDimensions) : Env :=
  { dims := dims, resizeErr := fun _ => none, origWriteErr := none,
    unlinkErr := fun _ => none, optimizeErr := fun _ => none,
    fileSaveErr := none, s3UploadErr := fun _ => none,
    cdnPublishErr := fun _ => none, metaInjectFail := false, metaPersistErr := none }

/-- The validated upload input used by the concrete witness runs. -/
def sampleInput : UploadInput :=
  { fileLen := 2048, originalName := "test-image.png", mimeType := "image/png",
    userId := "user123", tags := ["test", "demo"] }

/-- The upload order of the variants in steps 5 and 6
(`Object.entries(variants)` insertion order). -/
def variantOrder : List ImageSize := resizeSizes ++ [.original]

/-- `config.shouldFailResizePartial`: the resize tasks for `small` and
`large` reject, the others fulfil. -/
def envResizePartial (dims : ImageDimensions) : Env :=
  { envOk dims with
    resizeErr := fun s =>
      if s = .small ∨ s = .large then
        some (.processingError ("Simulated partial resize failure for " ++ s.name) (some "resize") none)
      else none }

/-- Partial resize failure combined with a failing `fs.unlink` of the
`thumbnail` temp file during the cleanup pass. -/
def envResizeBadCleanup (dims : ImageDimensions) (imageId : String) : Env :=
  { envResizePartial dims with
    unlinkErr := fun p =>
      if p = tempFilePath imageId .thumbnail then some (.fsError "EACCES" p) else none }

/-- A run in which `S3Storage.uploadFile` throws for exactly the variant
of size `s₀` (`config.shouldFailS3`-style injection). -/
def envS3Fail (dims : ImageDimensions) (s₀ : ImageSize) : Env :=
  { envOk dims with
    s3UploadErr := fun s =>
      if s = s₀ then some (.storageError "Simulated S3 upload failure" (some "s3") none) else none }

/-- A run in which `CDNPublisher.publishFile` always throws
(`config.shouldFailCDN`: `NetworkError('Simulated CDN publish failure',
false)`). -/
def envCdnFail (dims : ImageDimensions) : Env :=
  { envOk dims with
    cdnPublishErr := fun _ => some (.networkError "Simulated CDN publish failure" false none) }

/-- The CDN-failure run, additionally with the rollback's
`FileStorage.deleteFile` of the original failing (`fs.unlink` throws a
non-`ENOENT` error on that path). -/
def envCdnFailBadDelete (dims : ImageDimensions) (imageId : String) : Env :=
  { envCdnFail dims with
    unlinkErr := fun p =>
      if p = fileStoragePath (imageId ++ "-original") then some (.fsError "EACCES" p) else none }

/-- A run in which `optimize` throws for exactly the variant of size `s₀`
(`config.shouldFailOptimize`-style injection). -/
def envOptimizeFail (dims : ImageDimensions) (s₀ : ImageSize) : Env :=
  { envOk dims with
    optimizeErr := fun s =>
      if s = s₀ then some (.processingError "Simulated optimization failure" (some "optimize") none)
      else none }

/-- The variant list as it stands right after a fully successful resize
step: the four size classes in task order plus the original. -/
def successBaseVariants (fileLen : Int) (dims : ImageDimensions) (imageId : String) :
    List ImageVariant :=
  resizeSizes.map (fun s => resizeVariant fileLen s dims imageId) ++
    [{ size := .original, dimensions := dims, fileSize := fileLen,
       filePath := tempFilePath imageId .original }]

/-- The variant list at the end of a fully successful run: every variant
carries its local path, its S3 URL and its CDN URL. -/
def successVariants (fileLen : Int) (dims : ImageDimensions) (imageId : String) :
    List ImageVariant :=
  ((successBaseVariants fileLen dims imageId).map
      (fun v => { v with s3Url := some (s3UrlFor imageId v.size) })).map
    (fun v => { v with cdnUrl := some (cdnUrlFor imageId v.size) })

/-- The `ImageMetadata` record a fully successful run returns and persists. -/
def successRecord (env : Env) (input : UploadInput) (imageId : String) : ImageMetadata :=
  { id := imageId, originalName := input.originalName, mimeType := input.mimeType,
    fileSize := input.fileLen, dimensions := env.dims,
    sizes := (successVariants input.fileLen env.dims imageId).map (fun v => (v.size, v)),
    tags := input.tags, userId := input.userId }

/-- The handle-ordering invariant of one variant (C9): the local handle
is populated from creation (it is the variant's temp path), and the edge
handle is never populated while the object-store handle is not. -/
def variantInv (imageId : String) (v : ImageVariant) : Prop :=
  v.filePath = tempFilePath imageId v.size ∧ (v.cdnUrl.isSome → v.s3Url.isSome)

/-! ## Theorems -/

theorem retryGo_all_retryable {E A : Type} (op : Nat → Except E A) (e : Nat → E)
    (isR : E → Bool) (maxRetries base : Nat)
    (hop : ∀ i, op i = .error (e i)) (hisR : ∀ i, isR (e i) = true) :
    ∀ (k attempt : Nat), attempt + k = maxRetries → ∀ ds,
      retryGo op isR maxRetries base attempt ds =
        ⟨.error (e maxRetries), maxRetries + 1,
          ds ++ (List.range' attempt k).map (fun i => base * 2 ^ i)⟩ := by
  intro k
  induction k with
  | zero =>
    intro attempt hatt ds
    have ha : attempt = maxRetries := by omega
    subst ha
    rw [retryGo, hop]
    simp
  | succ k ih =>
    intro attempt hatt ds
    have hlt : attempt < maxRetries := by omega
    rw [retryGo, hop]
    simp only
    rw [dif_pos ⟨hisR attempt, hlt⟩]
    rw [ih (attempt + 1) (by omega) (ds ++ [base * 2 ^ attempt])]
    simp [List.range'_succ, List.append_assoc]

theorem pow_delays_pairwise (base : Nat) :
    ∀ (k s : Nat), ((List.range' s k).map (fun i => base * 2 ^ i)).Pairwise (· ≤ ·) := by
  intro k
  induction k with
  | zero => intro s; simp
  | succ k ih =>
    intro s
    rw [List.range'_succ, List.map_cons, List.pairwise_cons]
    refine ⟨?_, ih (s + 1)⟩
    intro y hy
    obtain ⟨i, hi, rfl⟩ := List.mem_map.mp hy
    have his : s + 1 ≤ i := (List.mem_range'_1.mp hi).1
    exact Nat.mul_le_mul_left base (Nat.pow_le_pow_right (by norm_num) (by omega))

/-- **C4 counterexample.**  With the configured retry count of 3 (the
`maxRetries = 3` of `FileStorage`/`S3Storage`) and a classifier that
marks every error retryable, an always-failing operation is attempted
4 times (`attempt = 0..3`, since the loop runs while
`attempt <= this.maxRetries`), not 3 as the claim states. -/
theorem retryExec_not_three_attempts :
    ¬ (retryExec (fun _ => (.error simulatedNetworkFailure : Except Err Unit))
        (fun _ => true) 3 100).attemptsMade = 3 := by
  intro hcontra
  have h := retryGo_all_retryable (fun _ => (.error simulatedNetworkFailure : Except Err Unit))
    (fun _ => simulatedNetworkFailure) (fun _ => true) 3 100
    (fun _ => rfl) (fun _ => rfl) 3 0 rfl []
  unfold retryExec at hcontra
  rw [h] at hcontra
  simp at hcontra

/-- **C4 (amended).**  For the retry executor shared by the backends:
with a classifier that marks all errors fatal the operation is attempted
exactly once; with a classifier that marks all errors retryable and a
configured retry count `maxRetries`, an always-failing operation is
attempted exactly `maxRetries + 1` times (4 for the configured value 3,
not 3), with delays `base * 2^attempt` for `attempt = 0..maxRetries-1`,
non-decreasing across attempts; the error finally thrown is the last
error wrapped with the attempt count `maxRetries + 1` (shown for
`FileStorage.saveFile`'s wrapping, whose configuration is
`maxRetries = 3`, so the message says 4 attempts).  An operation that
succeeds on its first call is attempted exactly once under **any**
classifier, returning its value. -/
theorem retryExec_attempt_counts (op : Nat → Except Err Unit) (e : Nat → Err)
    (hop : ∀ i, op i = .error (e i)) (maxRetries base : Nat) (id : String) :
    (retryExec op (fun _ => false) maxRetries base).attemptsMade = 1 ∧
    (retryExec op (fun _ => true) maxRetries base).attemptsMade = maxRetries + 1 ∧
    (retryExec op (fun _ => true) maxRetries base).delays =
      (List.range maxRetries).map (fun i => base * 2 ^ i) ∧
    (retryExec op (fun _ => true) maxRetries base).delays.Pairwise (· ≤ ·) ∧
    ((∀ i, networkRetryable (e i) = true) →
      saveFileRetried op id =
        .error (.storageError
          ("Failed to save file " ++ id ++ " after " ++ toString (3 + 1) ++ " attempts")
          none (some (e 3)))) ∧
    (∀ (op2 : Nat → Except Err Unit) (isR : Err → Bool), op2 0 = .ok () →
      (retryExec op2 isR maxRetries base).attemptsMade = 1 ∧
      (retryExec op2 isR maxRetries base).result = .ok ()) := by
  have hall := retryGo_all_retryable op e (fun _ => true) maxRetries base hop
    (fun _ => rfl) maxRetries 0 (Nat.zero_add maxRetries) []
  have hfatal : (retryExec op (fun _ => false) maxRetries base).attemptsMade = 1 := by
    unfold retryExec
    rw [retryGo, hop]
    simp
  refine ⟨hfatal, ?_, ?_, ?_, ?_, ?_⟩
  · unfold retryExec
    rw [hall]
  · unfold retryExec
    rw [hall]
    simp [List.range_eq_range']
  · unfold retryExec
    rw [hall]
    simpa using pow_delays_pairwise base maxRetries 0
  · intro hnet
    have h3 := retryGo_all_retryable op e networkRetryable 3 100 hop hnet 3 0 rfl []
    unfold saveFileRetried retryExec
    rw [h3]
  · intro op2 isR hok
    unfold retryExec
    rw [retryGo, hok]
    exact ⟨rfl, rfl⟩

/-- Witness for C4 (amended) at the concrete configuration of
`FileStorage` (`maxRetries = 3`, `retryDelayMs = 100`) and an operation
that always throws `NetworkError('Simulated network failure')`. -/
theorem retryExec_attempt_counts_witness :
    (∀ i : Nat, (fun _ : Nat => (.error simulatedNetworkFailure : Except Err Unit)) i =
        .error ((fun _ : Nat => simulatedNetworkFailure) i)) ∧
    ((retryExec (fun _ => (.error simulatedNetworkFailure : Except Err Unit))
        (fun _ => false) 3 100).attemptsMade = 1 ∧
     (retryExec (fun _ => (.error simulatedNetworkFailure : Except Err Unit))
        (fun _ => true) 3 100).attemptsMade = 3 + 1 ∧
     (retryExec (fun _ => (.error simulatedNetworkFailure : Except Err Unit))
        (fun _ => true) 3 100).delays = (List.range 3).map (fun i => 100 * 2 ^ i) ∧
     (retryExec (fun _ => (.error simulatedNetworkFailure : Except Err Unit))
        (fun _ => true) 3 100).delays.Pairwise (· ≤ ·) ∧
     ((∀ i : Nat, networkRetryable ((fun _ : Nat => simulatedNetworkFailure) i) = true) →
       saveFileRetried (fun _ => (.error simulatedNetworkFailure : Except Err Unit)) "doc1" =
         .error (.storageError
           ("Failed to save file " ++ "doc1" ++ " after " ++ toString (3 + 1) ++ " attempts")
           none (some ((fun _ : Nat => simulatedNetworkFailure) 3)))) ∧
     (∀ (op2 : Nat → Except Err Unit) (isR : Err → Bool), op2 0 = .ok () →
       (retryExec op2 isR 3 100).attemptsMade = 1 ∧
       (retryExec op2 isR 3 100).result = .ok ())) :=
  ⟨fun _ => rfl,
   retryExec_attempt_counts (fun _ => .error simulatedNetworkFailure)
     (fun _ => simulatedNetworkFailure) (fun _ => rfl) 3 100 "doc1"⟩

theorem tempFilePath_injective (imageId : String) :
    Function.Injective (tempFilePath imageId) := by
  intro s s' h
  unfold tempFilePath at h
  have hd := congrArg String.data h
  simp only [String.data_append, List.append_assoc] at hd
  have h1 := List.append_cancel_left hd
  have h2 := List.append_cancel_left h1
  have h3 := List.append_cancel_left h2
  cases s <;> cases s' <;> first
    | rfl
    | exact absurd h3 (by decide)

theorem mem_fsWrite {fs : FS} {p q : String} : q ∈ fsWrite fs p ↔ q ∈ fs ∨ q = p := by
  unfold fsWrite
  by_cases h : p ∈ fs
  · rw [if_pos h]
    constructor
    · exact Or.inl
    · rintro (hq | rfl)
      · exact hq
      · exact h
  · rw [if_neg h]
    simp

theorem nodup_fsWrite {fs : FS} {p : String} (h : fs.Nodup) : (fsWrite fs p).Nodup := by
  unfold fsWrite
  by_cases hp : p ∈ fs
  · rw [if_pos hp]; exact h
  · rw [if_neg hp]
    simp [List.nodup_append, h, hp]

theorem mem_writeFold : ∀ (vs : List ImageVariant) (fs : FS) (q : String),
    (q ∈ vs.foldl (fun fs v => fsWrite fs v.filePath) fs ↔
      q ∈ fs ∨ q ∈ vs.map ImageVariant.filePath) := by
  intro vs
  induction vs with
  | nil => intro fs q; simp
  | cons v tl ih =>
    intro fs q
    rw [List.foldl_cons, ih, mem_fsWrite]
    simp
    tauto

theorem nodup_writeFold : ∀ (vs : List ImageVariant) (fs : FS), fs.Nodup →
    (vs.foldl (fun fs v => fsWrite fs v.filePath) fs).Nodup := by
  intro vs
  induction vs with
  | nil => intro fs h; exact h
  | cons v tl ih => intro fs h; exact ih _ (nodup_fsWrite h)

theorem cleanupPass_mem (env : Env) : ∀ (paths : List String) (fs : FS) (errs : List Err),
    fs.Nodup → ∀ q : String,
    (q ∈ (paths.foldl
        (fun acc p =>
          match fsUnlink env acc.1 p with
          | .ok fs' => (fs', acc.2)
          | .error e => (acc.1, acc.2 ++ [e])) (fs, errs)).1 ↔
      q ∈ fs ∧ ¬(q ∈ paths ∧ env.unlinkErr q = none)) := by
  intro paths
  induction paths with
  | nil => intro fs errs hnd q; simp
  | cons p tl ih =>
    intro fs errs hnd q
    rw [List.foldl_cons]
    by_cases hp : p ∈ fs
    · cases hue : env.unlinkErr p with
      | none =>
        have hu : fsUnlink env fs p = .ok (fs.erase p) := by simp [fsUnlink, hp, hue]
        simp only [hu]
        rw [ih (fs.erase p) errs (hnd.erase p) q]
        by_cases hqp : q = p
        · subst hqp
          constructor
          · rintro ⟨hmem, -⟩
            exact (((hnd.mem_erase_iff).mp hmem).1 rfl).elim
          · rintro ⟨-, hneg⟩
            exact (hneg ⟨List.mem_cons_self _ _, hue⟩).elim
        · have hiff : q ∈ fs.erase p ↔ q ∈ fs := List.mem_erase_of_ne hqp
          rw [hiff]
          simp only [List.mem_cons]
          constructor
          · rintro ⟨hmem, hneg⟩
            exact ⟨hmem, fun hc => hneg ⟨hc.1.resolve_left hqp, hc.2⟩⟩
          · rintro ⟨hmem, hneg⟩
            exact ⟨hmem, fun hc => hneg ⟨Or.inr hc.1, hc.2⟩⟩
      | some e =>
        have hu : fsUnlink env fs p = .error e := by simp [fsUnlink, hp, hue]
        simp only [hu]
        rw [ih fs (errs ++ [e]) hnd q]
        by_cases hqp : q = p
        · subst hqp
          simp [hue]
        · simp only [List.mem_cons]
          constructor
          · rintro ⟨hmem, hneg⟩
            exact ⟨hmem, fun hc => hneg ⟨hc.1.resolve_left hqp, hc.2⟩⟩
          · rintro ⟨hmem, hneg⟩
            exact ⟨hmem, fun hc => hneg ⟨Or.inr hc.1, hc.2⟩⟩
    · have hu : fsUnlink env fs p = .error (Err.fsError "ENOENT" p) := by simp [fsUnlink, hp]
      simp only [hu]
      rw [ih fs (errs ++ [Err.fsError "ENOENT" p]) hnd q]
      by_cases hqp : q = p
      · subst hqp
        simp [hp]
      · simp only [List.mem_cons]
        constructor
        · rintro ⟨hmem, hneg⟩
          exact ⟨hmem, fun hc => hneg ⟨hc.1.resolve_left hqp, hc.2⟩⟩
        · rintro ⟨hmem, hneg⟩
          exact ⟨hmem, fun hc => hneg ⟨Or.inr hc.1, hc.2⟩⟩

theorem cleanupPass_errors (env : Env) : ∀ (paths : List String) (fs : FS) (errs : List Err),
    fs.Nodup → paths.Nodup → (∀ p ∈ paths, p ∈ fs) →
    (paths.foldl
        (fun acc p =>
          match fsUnlink env acc.1 p with
          | .ok fs' => (fs', acc.2)
          | .error e => (acc.1, acc.2 ++ [e])) (fs, errs)).2 =
      errs ++ paths.filterMap env.unlinkErr := by
  intro paths
  induction paths with
  | nil => intro fs errs hnd hpnd hsub; simp
  | cons p tl ih =>
    intro fs errs hnd hpnd hsub
    have hp : p ∈ fs := hsub p (by simp)
    rw [List.foldl_cons]
    cases hue : env.unlinkErr p with
    | none =>
      have hu : fsUnlink env fs p = .ok (fs.erase p) := by simp [fsUnlink, hp, hue]
      have hsub' : ∀ r ∈ tl, r ∈ fs.erase p := by
        intro r hr
        have hrp : r ≠ p := by
          intro hcontra
          subst hcontra
          exact (List.nodup_cons.mp hpnd).1 hr
        exact (List.mem_erase_of_ne hrp).mpr (hsub r (by simp [hr]))
      simp only [hu]
      rw [ih (fs.erase p) errs (hnd.erase p) hpnd.of_cons hsub']
      simp [List.filterMap_cons, hue]
    | some e =>
      have hu : fsUnlink env fs p = .error e := by simp [fsUnlink, hp, hue]
      simp only [hu]
      rw [ih fs (errs ++ [e]) hnd hpnd.of_cons (fun r hr => hsub r (by simp [hr]))]
      simp [List.filterMap_cons, hue]

theorem fsUnlink_ok {env : Env} {fs : FS} {p : String} {fs' : FS}
    (h : fsUnlink env fs p = .ok fs') :
    p ∈ fs ∧ env.unlinkErr p = none ∧ fs' = fs.erase p := by
  unfold fsUnlink at h
  split at h
  · cases h' : env.unlinkErr p <;> rw [h'] at h <;> simp_all
  · simp at h

/-- **C6.** Every storage backend's delete is idempotent: deleting an
already-absent key succeeds without error, a delete that succeeded can be
repeated on the same key and succeeds again leaving the state unchanged,
and the edge publisher's compensation operation (`invalidate`) always
succeeds.  (`hnd`: the filesystem never holds duplicate paths.) -/
theorem storage_delete_idempotent (env : Env) (fs : FS) (id imageId : String)
    (size : ImageSize) (hnd : fs.Nodup) :
    (fileStoragePath id ∉ fs → FileStorage.deleteFile env fs id = (fs, .ok ())) ∧
    (∀ fs₁, FileStorage.deleteFile env fs id = (fs₁, .ok ()) →
      FileStorage.deleteFile env fs₁ id = (fs₁, .ok ())) ∧
    (s3ObjectPath imageId size ∉ fs → S3Storage.deleteFile env fs imageId size = (fs, .ok ())) ∧
    (∀ fs₁, S3Storage.deleteFile env fs imageId size = (fs₁, .ok ()) →
      S3Storage.deleteFile env fs₁ imageId size = (fs₁, .ok ())) ∧
    CDNPublisher.invalidate = .ok () := by
  refine ⟨?_, ?_, ?_, ?_, rfl⟩
  · intro habs
    have h : fsUnlink env fs (fileStoragePath id) = .error (.fsError "ENOENT" (fileStoragePath id)) := by
      simp [fsUnlink, habs]
    simp [FileStorage.deleteFile, h, Err.code]
  · intro fs₁ h1
    unfold FileStorage.deleteFile at h1 ⊢
    rcases hu : fsUnlink env fs (fileStoragePath id) with e | fs'
    · rw [hu] at h1
      simp only [] at h1
      by_cases hc : e.code = some "ENOENT"
      · rw [if_pos hc] at h1
        simp at h1
        subst h1
        rw [hu]
        simp [hc]
      · rw [if_neg hc] at h1
        simp at h1
    · obtain ⟨hmem, hne, herase⟩ := fsUnlink_ok hu
      rw [hu] at h1
      simp at h1
      subst h1
      have hnot : fileStoragePath id ∉ fs' := by
        rw [herase]
        intro hcontra
        exact ((hnd.mem_erase_iff).mp hcontra).1 rfl
      have h2 : fsUnlink env fs' (fileStoragePath id) =
          .error (.fsError "ENOENT" (fileStoragePath id)) := by
        simp [fsUnlink, hnot]
      simp [h2, Err.code]
  · intro habs
    have h : fsUnlink env fs (s3ObjectPath imageId size) =
        .error (.fsError "ENOENT" (s3ObjectPath imageId size)) := by
      simp [fsUnlink, habs]
    simp [S3Storage.deleteFile, h, Err.code]
  · intro fs₁ h1
    unfold S3Storage.deleteFile at h1 ⊢
    rcases hu : fsUnlink env fs (s3ObjectPath imageId size) with e | fs'
    · rw [hu] at h1
      simp only [] at h1
      by_cases hc : e.code = some "ENOENT"
      · rw [if_pos hc] at h1
        simp at h1
        subst h1
        rw [hu]
        simp [hc]
      · rw [if_neg hc] at h1
        simp at h1
    · obtain ⟨hmem, hne, herase⟩ := fsUnlink_ok hu
      rw [hu] at h1
      simp at h1
      subst h1
      have hnot : s3ObjectPath imageId size ∉ fs' := by
        rw [herase]
        intro hcontra
        exact ((hnd.mem_erase_iff).mp hcontra).1 rfl
      have h2 : fsUnlink env fs' (s3ObjectPath imageId size) =
          .error (.fsError "ENOENT" (s3ObjectPath imageId size)) := by
        simp [fsUnlink, hnot]
      simp [h2, Err.code]

/-- Witness for C6 on the empty filesystem with the pipeline's keys. -/
theorem storage_delete_idempotent_witness :
    List.Nodup ([] : FS) ∧
    ((fileStoragePath "img1-original" ∉ ([] : FS) →
        FileStorage.deleteFile (envOk ⟨2000, 1500⟩) [] "img1-original" = ([], .ok ())) ∧
     (∀ fs₁, FileStorage.deleteFile (envOk ⟨2000, 1500⟩) [] "img1-original" = (fs₁, .ok ()) →
        FileStorage.deleteFile (envOk ⟨2000, 1500⟩) fs₁ "img1-original" = (fs₁, .ok ())) ∧
     (s3ObjectPath "img1" ImageSize.thumbnail ∉ ([] : FS) →
        S3Storage.deleteFile (envOk ⟨2000, 1500⟩) [] "img1" ImageSize.thumbnail = ([], .ok ())) ∧
     (∀ fs₁, S3Storage.deleteFile (envOk ⟨2000, 1500⟩) [] "img1" ImageSize.thumbnail = (fs₁, .ok ()) →
        S3Storage.deleteFile (envOk ⟨2000, 1500⟩) fs₁ "img1" ImageSize.thumbnail = (fs₁, .ok ())) ∧
     CDNPublisher.invalidate = .ok ()) :=
  ⟨List.nodup_nil,
   storage_delete_idempotent (envOk ⟨2000, 1500⟩) [] "img1-original" "img1"
     ImageSize.thumbnail List.nodup_nil⟩

theorem failedResizes_eq (env : Env) (fileLen : Int) (dims : ImageDimensions) (imageId : String) :
    failedResizes env fileLen dims imageId =
      resizeSizes.filterMap (fun s => (env.resizeErr s).map (fun e => (s, e))) := by
  unfold failedResizes
  have aux : ∀ l : List ImageSize,
      l.filterMap (fun s =>
        match resizeSingle env fileLen s dims imageId with
        | .error e => some (s, e)
        | .ok _ => none) =
      l.filterMap (fun s => (env.resizeErr s).map (fun e => (s, e))) := by
    intro l
    induction l with
    | nil => rfl
    | cons hd tl ih =>
      rw [List.filterMap_cons, List.filterMap_cons, ih]
      cases h : env.resizeErr hd <;> simp [resizeSingle, h]
  exact aux resizeSizes

theorem succeededVariants_eq (env : Env) (fileLen : Int) (dims : ImageDimensions) (imageId : String) :
    succeededVariants env fileLen dims imageId =
      (succeededSizes env).map (fun s => resizeVariant fileLen s dims imageId) := by
  unfold succeededVariants succeededSizes
  have aux : ∀ l : List ImageSize,
      l.filterMap (fun s => (resizeSingle env fileLen s dims imageId).toOption) =
      (l.filter (fun s => (env.resizeErr s).isNone)).map
        (fun s => resizeVariant fileLen s dims imageId) := by
    intro l
    induction l with
    | nil => rfl
    | cons hd tl ih =>
      rw [List.filterMap_cons, List.filter_cons, ih]
      cases h : env.resizeErr hd <;> simp [resizeSingle, h, Except.toOption]
  exact aux resizeSizes

theorem resizeTempFiles_eq (env : Env) (fileLen : Int) (dims : ImageDimensions) (imageId : String) :
    resizeTempFiles env fileLen dims imageId = (succeededSizes env).map (tempFilePath imageId) := by
  unfold resizeTempFiles
  rw [succeededVariants_eq, List.map_map]
  rfl

theorem failedResizes_nil_iff (env : Env) (fileLen : Int) (dims : ImageDimensions) (imageId : String) :
    failedResizes env fileLen dims imageId = [] ↔ ∀ s ∈ resizeSizes, env.resizeErr s = none := by
  rw [failedResizes_eq, List.filterMap_eq_nil]
  constructor
  · intro h s hs
    have := h s hs
    cases he : env.resizeErr s
    · rfl
    · rw [he] at this; simp at this
  · intro h s hs
    rw [h s hs]
    rfl

theorem resizeTempFiles_nodup (env : Env) (fileLen : Int) (dims : ImageDimensions) (imageId : String) :
    (resizeTempFiles env fileLen dims imageId).Nodup := by
  rw [resizeTempFiles_eq]
  refine List.Nodup.map (tempFilePath_injective imageId) ?_
  exact List.Nodup.filter _ (by decide)

theorem resizeTempFiles_filterMap_unlink (env : Env) (fileLen : Int) (dims : ImageDimensions)
    (imageId : String) :
    (resizeTempFiles env fileLen dims imageId).filterMap env.unlinkErr =
      cleanupErrors env imageId := by
  rw [resizeTempFiles_eq, List.filterMap_map]
  rfl

theorem resizeToAllSizes_success_case (env : Env) (fileLen : Int) (dims : ImageDimensions)
    (imageId : String) (fs0 : FS)
    (hnil : failedResizes env fileLen dims imageId = [])
    (horig : env.origWriteErr = none) :
    resizeToAllSizes env fileLen dims imageId fs0 =
      (fsWrite (resizeWrittenFS env fileLen dims imageId fs0) (tempFilePath imageId .original),
       .ok (succeededVariants env fileLen dims imageId ++
         [{ size := .original, dimensions := dims, fileSize := fileLen,
            filePath := tempFilePath imageId .original }])) := by
  simp only [resizeToAllSizes]
  rw [hnil, horig]

theorem resizeToAllSizes_failure_case (env : Env) (fileLen : Int) (dims : ImageDimensions)
    (imageId : String) (fs0 : FS) (f : ImageSize × Err) (rest : List (ImageSize × Err))
    (hfr : failedResizes env fileLen dims imageId = f :: rest) :
    resizeToAllSizes env fileLen dims imageId fs0 =
      (match cleanupFiles env (resizeWrittenFS env fileLen dims imageId fs0)
          (resizeTempFiles env fileLen dims imageId) with
      | (fs2, .error ce) => (fs2, .error ce)
      | (fs2, .ok _) =>
        (fs2, .error (.processingError
          ("Failed to resize " ++ toString (f :: rest).length ++ "/"
            ++ toString resizeSizes.length ++ " sizes: " ++ resizeErrorMessages (f :: rest))
          (some "resize") (some f.2)))) := by
  simp only [resizeToAllSizes]
  rw [hfr]

/-- **C3 counterexample.**  A run of the parallel resize in which the
`small` and `large` tasks fail and the cleanup unlink of the successful
`thumbnail` temp file itself fails: afterwards the thumbnail variant's
intermediate output is still observable on disk, and the returned error
is the cleanup `ResourceError`, not the aggregated error naming the
failed size classes. -/
theorem resizeToAllSizes_not_all_or_nothing :
    tempFilePath "img1" .thumbnail ∈
      (resizeToAllSizes (envResizeBadCleanup ⟨2000, 1500⟩ "img1") 2048 ⟨2000, 1500⟩ "img1" []).1 ∧
    (resizeToAllSizes (envResizeBadCleanup ⟨2000, 1500⟩ "img1") 2048 ⟨2000, 1500⟩ "img1" []).2 =
      .error (.resourceError "Failed to cleanup 1 temp files" (some "temp-file")
        (some (.fsError "EACCES" (tempFilePath "img1" .thumbnail)))) :=
  ⟨by decide, rfl⟩

/-- **C3 (amended).**  Derivative generation is all-or-nothing only on the
happy paths: if every resize task succeeds **and the write of the
`original` variant's temp file succeeds**, the full variant list (all
four size classes plus the original) is returned; if any task fails and
the unlinks of the successful tasks' temp files all succeed, no temp file
of any size class remains observable and the aggregated `ProcessingError`
naming the failed size classes and wrapping the first underlying cause is
returned.  But if every task succeeds and the subsequent `fs.writeFile`
of the original fails, that **raw** write error propagates with no
cleanup attempted — all four size-class temp files remain observable.
(And when a cleanup unlink itself fails the cleanup error is returned
instead and undeleted intermediates remain — see the counterexample and
C10.) -/
theorem resizeToAllSizes_all_or_nothing (env : Env) (fileLen : Int)
    (dims : ImageDimensions) (imageId : String) (fs0 : FS)
    (hnd : fs0.Nodup)
    (hfs0 : ∀ s : ImageSize, tempFilePath imageId s ∉ fs0) :
    ((∀ s ∈ resizeSizes, env.resizeErr s = none) → env.origWriteErr = none →
      ∃ vs, (resizeToAllSizes env fileLen dims imageId fs0).2 = .ok vs ∧
        vs.map ImageVariant.size = resizeSizes ++ [.original]) ∧
    (failedResizes env fileLen dims imageId ≠ [] →
      (∀ s : ImageSize, env.unlinkErr (tempFilePath imageId s) = none) →
      (∀ s : ImageSize, tempFilePath imageId s ∉ (resizeToAllSizes env fileLen dims imageId fs0).1) ∧
      ∃ f rest, failedResizes env fileLen dims imageId = f :: rest ∧
        (resizeToAllSizes env fileLen dims imageId fs0).2 = .error (.processingError
          ("Failed to resize " ++ toString (failedResizes env fileLen dims imageId).length ++ "/"
            ++ toString resizeSizes.length ++ " sizes: "
            ++ resizeErrorMessages (failedResizes env fileLen dims imageId))
          (some "resize") (some f.2))) ∧
    ((∀ s ∈ resizeSizes, env.resizeErr s = none) → ∀ e, env.origWriteErr = some e →
      (resizeToAllSizes env fileLen dims imageId fs0).2 = .error e ∧
      ∀ s ∈ resizeSizes,
        tempFilePath imageId s ∈ (resizeToAllSizes env fileLen dims imageId fs0).1) := by
  refine ⟨?_, ?_, ?_⟩
  · intro hall horig
    have hnil : failedResizes env fileLen dims imageId = [] :=
      (failedResizes_nil_iff env fileLen dims imageId).mpr hall
    rw [resizeToAllSizes_success_case env fileLen dims imageId fs0 hnil horig]
    refine ⟨_, rfl, ?_⟩
    rw [succeededVariants_eq]
    have hsz : succeededSizes env = resizeSizes := by
      unfold succeededSizes
      rw [List.filter_eq_self]
      intro s hs
      rw [hall s hs]
      rfl
    rw [hsz, List.map_append, List.map_map]
    have hcomp : (ImageVariant.size ∘ fun s => resizeVariant fileLen s dims imageId) =
        fun s => s := rfl
    rw [hcomp]
    simp
  · intro hfail hclean
    obtain ⟨f, rest, hfr⟩ : ∃ f rest, failedResizes env fileLen dims imageId = f :: rest := by
      cases h : failedResizes env fileLen dims imageId with
      | nil => exact absurd h hfail
      | cons a b => exact ⟨a, b, rfl⟩
    have hfs1nd : (resizeWrittenFS env fileLen dims imageId fs0).Nodup :=
      nodup_writeFold _ _ hnd
    have htnd : (resizeTempFiles env fileLen dims imageId).Nodup :=
      resizeTempFiles_nodup env fileLen dims imageId
    have hsub : ∀ p ∈ resizeTempFiles env fileLen dims imageId,
        p ∈ resizeWrittenFS env fileLen dims imageId fs0 := by
      intro p hp
      unfold resizeWrittenFS
      rw [mem_writeFold]
      exact Or.inr hp
    have herr : (cleanupPass env (resizeWrittenFS env fileLen dims imageId fs0)
        (resizeTempFiles env fileLen dims imageId)).2 = [] := by
      unfold cleanupPass
      rw [cleanupPass_errors env (resizeTempFiles env fileLen dims imageId)
        (resizeWrittenFS env fileLen dims imageId fs0) [] hfs1nd htnd hsub]
      rw [List.nil_append, resizeTempFiles_filterMap_unlink]
      unfold cleanupErrors
      exact List.filterMap_eq_nil.mpr (fun s _ => hclean s)
    have hpair : cleanupPass env (resizeWrittenFS env fileLen dims imageId fs0)
        (resizeTempFiles env fileLen dims imageId) =
        ((cleanupPass env (resizeWrittenFS env fileLen dims imageId fs0)
          (resizeTempFiles env fileLen dims imageId)).1, []) := by
      rw [← herr]
    have hcf : cleanupFiles env (resizeWrittenFS env fileLen dims imageId fs0)
        (resizeTempFiles env fileLen dims imageId) =
        ((cleanupPass env (resizeWrittenFS env fileLen dims imageId fs0)
          (resizeTempFiles env fileLen dims imageId)).1, .ok ()) := by
      unfold cleanupFiles
      rw [hpair]
    constructor
    · intro s hcontra
      rw [resizeToAllSizes_failure_case env fileLen dims imageId fs0 f rest hfr, hcf] at hcontra
      have hmemlemma := cleanupPass_mem env (resizeTempFiles env fileLen dims imageId)
        (resizeWrittenFS env fileLen dims imageId fs0) [] hfs1nd (tempFilePath imageId s)
      unfold cleanupPass at hcontra
      rw [hmemlemma] at hcontra
      obtain ⟨h1, h2⟩ := hcontra
      unfold resizeWrittenFS at h1
      rw [mem_writeFold] at h1
      rcases h1 with h1 | h1
      · exact hfs0 s h1
      · exact h2 ⟨h1, hclean s⟩
    · refine ⟨f, rest, hfr, ?_⟩
      rw [hfr]
      rw [resizeToAllSizes_failure_case env fileLen dims imageId fs0 f rest hfr, hcf]
  · intro hall e he
    have hnil : failedResizes env fileLen dims imageId = [] :=
      (failedResizes_nil_iff env fileLen dims imageId).mpr hall
    have hres : resizeToAllSizes env fileLen dims imageId fs0 =
        (resizeWrittenFS env fileLen dims imageId fs0, .error e) := by
      simp only [resizeToAllSizes]
      rw [hnil, he]
    rw [hres]
    refine ⟨rfl, ?_⟩
    intro s hs
    show tempFilePath imageId s ∈ resizeWrittenFS env fileLen dims imageId fs0
    unfold resizeWrittenFS
    rw [mem_writeFold]
    right
    rw [show (succeededVariants env fileLen dims imageId).map ImageVariant.filePath =
        resizeTempFiles env fileLen dims imageId from rfl]
    rw [resizeTempFiles_eq]
    have hsz : succeededSizes env = resizeSizes := by
      unfold succeededSizes
      rw [List.filter_eq_self]
      intro t ht
      rw [hall t ht]
      rfl
    rw [hsz]
    exact List.mem_map_of_mem _ hs

/-- Witness for C3 (amended) at the `shouldFailResizePartial` scenario
(`small` and `large` fail, cleanup succeeds) starting from an empty
filesystem. -/
theorem resizeToAllSizes_all_or_nothing_witness :
    List.Nodup ([] : FS) ∧ (∀ s : ImageSize, tempFilePath "img1" s ∉ ([] : FS)) ∧
    (((∀ s ∈ resizeSizes, (envResizePartial ⟨2000, 1500⟩).resizeErr s = none) →
        (envResizePartial ⟨2000, 1500⟩).origWriteErr = none →
        ∃ vs, (resizeToAllSizes (envResizePartial ⟨2000, 1500⟩) 2048 ⟨2000, 1500⟩ "img1" []).2 = .ok vs ∧
          vs.map ImageVariant.size = resizeSizes ++ [.original]) ∧
     (failedResizes (envResizePartial ⟨2000, 1500⟩) 2048 ⟨2000, 1500⟩ "img1" ≠ [] →
        (∀ s : ImageSize, (envResizePartial ⟨2000, 1500⟩).unlinkErr (tempFilePath "img1" s) = none) →
        (∀ s : ImageSize, tempFilePath "img1" s ∉
          (resizeToAllSizes (envResizePartial ⟨2000, 1500⟩) 2048 ⟨2000, 1500⟩ "img1" []).1) ∧
        ∃ f rest, failedResizes (envResizePartial ⟨2000, 1500⟩) 2048 ⟨2000, 1500⟩ "img1" = f :: rest ∧
          (resizeToAllSizes (envResizePartial ⟨2000, 1500⟩) 2048 ⟨2000, 1500⟩ "img1" []).2 =
            .error (.processingError
              ("Failed to resize "
                ++ toString (failedResizes (envResizePartial ⟨2000, 1500⟩) 2048 ⟨2000, 1500⟩ "img1").length
                ++ "/" ++ toString resizeSizes.length ++ " sizes: "
                ++ resizeErrorMessages (failedResizes (envResizePartial ⟨2000, 1500⟩) 2048 ⟨2000, 1500⟩ "img1"))
              (some "resize") (some f.2))) ∧
     ((∀ s ∈ resizeSizes, (envResizePartial ⟨2000, 1500⟩).resizeErr s = none) →
        ∀ e, (envResizePartial ⟨2000, 1500⟩).origWriteErr = some e →
        (resizeToAllSizes (envResizePartial ⟨2000, 1500⟩) 2048 ⟨2000, 1500⟩ "img1" []).2 =
            .error e ∧
        ∀ s ∈ resizeSizes, tempFilePath "img1" s ∈
          (resizeToAllSizes (envResizePartial ⟨2000, 1500⟩) 2048 ⟨2000, 1500⟩ "img1" []).1)) :=
  ⟨List.nodup_nil, fun _ => List.not_mem_nil _,
   resizeToAllSizes_all_or_nothing (envResizePartial ⟨2000, 1500⟩) 2048 ⟨2000, 1500⟩ "img1" []
     List.nodup_nil (fun _ => List.not_mem_nil _)⟩

/-- **C10.**  In the derivative generator, when some resize tasks fail
and the deletion of the successful tasks' temp files itself fails, the
error propagated to the caller is the cleanup failure — a
`ResourceError` counting the failed unlinks and wrapping the first
unlink error — not the aggregated resize error naming the failed size
classes. -/
theorem resize_cleanup_error_propagates (env : Env) (fileLen : Int) (dims : ImageDimensions)
    (imageId : String) (fs0 : FS) (hnd : fs0.Nodup)
    (hfail : failedResizes env fileLen dims imageId ≠ [])
    (e : Err) (errs : List Err)
    (hce : cleanupErrors env imageId = e :: errs) :
    (resizeToAllSizes env fileLen dims imageId fs0).2 = .error (.resourceError
      ("Failed to cleanup " ++ toString (cleanupErrors env imageId).length ++ " temp files")
      (some "temp-file") (some e)) := by
  obtain ⟨f, rest, hfr⟩ : ∃ f rest, failedResizes env fileLen dims imageId = f :: rest := by
    cases h : failedResizes env fileLen dims imageId with
    | nil => exact absurd h hfail
    | cons a b => exact ⟨a, b, rfl⟩
  have hfs1nd : (resizeWrittenFS env fileLen dims imageId fs0).Nodup :=
    nodup_writeFold _ _ hnd
  have htnd : (resizeTempFiles env fileLen dims imageId).Nodup :=
    resizeTempFiles_nodup env fileLen dims imageId
  have hsub : ∀ p ∈ resizeTempFiles env fileLen dims imageId,
      p ∈ resizeWrittenFS env fileLen dims imageId fs0 := by
    intro p hp
    unfold resizeWrittenFS
    rw [mem_writeFold]
    exact Or.inr hp
  have herr : (cleanupPass env (resizeWrittenFS env fileLen dims imageId fs0)
      (resizeTempFiles env fileLen dims imageId)).2 = e :: errs := by
    unfold cleanupPass
    rw [cleanupPass_errors env (resizeTempFiles env fileLen dims imageId)
      (resizeWrittenFS env fileLen dims imageId fs0) [] hfs1nd htnd hsub]
    rw [List.nil_append, resizeTempFiles_filterMap_unlink]
    exact hce
  have hpair : cleanupPass env (resizeWrittenFS env fileLen dims imageId fs0)
      (resizeTempFiles env fileLen dims imageId) =
      ((cleanupPass env (resizeWrittenFS env fileLen dims imageId fs0)
        (resizeTempFiles env fileLen dims imageId)).1, e :: errs) := by
    rw [← herr]
  have hcf : cleanupFiles env (resizeWrittenFS env fileLen dims imageId fs0)
      (resizeTempFiles env fileLen dims imageId) =
      ((cleanupPass env (resizeWrittenFS env fileLen dims imageId fs0)
        (resizeTempFiles env fileLen dims imageId)).1,
       .error (.resourceError ("Failed to cleanup " ++ toString (e :: errs).length ++ " temp files")
         (some "temp-file") (some e))) := by
    unfold cleanupFiles
    rw [hpair]
  rw [resizeToAllSizes_failure_case env fileLen dims imageId fs0 f rest hfr, hcf, hce]

/-- Witness for C10 at the concrete run of the counterexample scenario:
`small`/`large` resizes fail and the unlink of the thumbnail temp file
fails with `EACCES`. -/
theorem resize_cleanup_error_propagates_witness :
    List.Nodup ([] : FS) ∧
    failedResizes (envResizeBadCleanup ⟨2000, 1500⟩ "img1") 2048 ⟨2000, 1500⟩ "img1" ≠ [] ∧
    cleanupErrors (envResizeBadCleanup ⟨2000, 1500⟩ "img1") "img1" =
      [.fsError "EACCES" (tempFilePath "img1" .thumbnail)] ∧
    (resizeToAllSizes (envResizeBadCleanup ⟨2000, 1500⟩ "img1") 2048 ⟨2000, 1500⟩ "img1" []).2 =
      .error (.resourceError
        ("Failed to cleanup "
          ++ toString (cleanupErrors (envResizeBadCleanup ⟨2000, 1500⟩ "img1") "img1").length
          ++ " temp files")
        (some "temp-file") (some (.fsError "EACCES" (tempFilePath "img1" .thumbnail)))) :=
  ⟨List.nodup_nil,
   fun h => absurd (congrArg List.length h) (by decide),
   rfl,
   resize_cleanup_error_propagates (envResizeBadCleanup ⟨2000, 1500⟩ "img1") 2048 ⟨2000, 1500⟩
     "img1" [] List.nodup_nil
     (fun h => absurd (congrArg List.length h) (by decide))
     (.fsError "EACCES" (tempFilePath "img1" .thumbnail)) [] rfl⟩

theorem mem_fsWrite_of_mem {fs : FS} {p q : String} (h : q ∈ fs) : q ∈ fsWrite fs p :=
  mem_fsWrite.mpr (Or.inl h)

theorem s3UploadLoop_ok (env : Env) (imageId : String) :
    ∀ (rest : List ImageVariant) (fs : FS) (done : List ImageVariant)
      (snaps : List (List ImageVariant)),
    (∀ v ∈ rest, env.s3UploadErr v.size = none) → (∀ v ∈ rest, v.filePath ∈ fs) →
    ∃ snaps', s3UploadLoop env imageId fs done rest snaps =
      (rest.foldl (fun fs v => fsWrite fs (s3ObjectPath imageId v.size)) fs,
       done ++ rest.map (fun v => { v with s3Url := some (s3UrlFor imageId v.size) }),
       snaps', none) := by
  intro rest
  induction rest with
  | nil => intro fs done snaps _ _; exact ⟨snaps, by simp [s3UploadLoop]⟩
  | cons v vs ih =>
    intro fs done snaps hs3 hmem
    have hv : env.s3UploadErr v.size = none := hs3 v (by simp)
    have hvf : v.filePath ∈ fs := hmem v (by simp)
    have hcall : S3Storage.uploadFile env imageId fs v =
        .ok (fsWrite fs (s3ObjectPath imageId v.size),
             { v with s3Url := some (s3UrlFor imageId v.size) }) := by
      unfold S3Storage.uploadFile
      rw [hv]
      simp only
      rw [if_pos hvf]
    obtain ⟨snaps', hrec⟩ := ih (fsWrite fs (s3ObjectPath imageId v.size))
      (done ++ [{ v with s3Url := some (s3UrlFor imageId v.size) }])
      (snaps ++ [done ++ { v with s3Url := some (s3UrlFor imageId v.size) } :: vs])
      (fun w hw => hs3 w (by simp [hw]))
      (fun w hw => mem_fsWrite_of_mem (hmem w (by simp [hw])))
    refine ⟨snaps', ?_⟩
    rw [s3UploadLoop]
    simp only [hcall]
    rw [hrec]
    simp

theorem cdnPublishLoop_ok (env : Env) (imageId : String) :
    ∀ (rest : List ImageVariant) (done : List ImageVariant)
      (snaps : List (List ImageVariant)),
    (∀ v ∈ rest, env.cdnPublishErr v.size = none) → (∀ v ∈ rest, v.s3Url.isSome) →
    ∃ snaps', cdnPublishLoop env imageId done rest snaps =
      (done ++ rest.map (fun v => { v with cdnUrl := some (cdnUrlFor imageId v.size) }),
       snaps', none) := by
  intro rest
  induction rest with
  | nil => intro done snaps _ _; exact ⟨snaps, by simp [cdnPublishLoop]⟩
  | cons v vs ih =>
    intro done snaps hcdn hs3
    have hv : env.cdnPublishErr v.size = none := hcdn v (by simp)
    have hvs : v.s3Url.isSome := hs3 v (by simp)
    obtain ⟨u, hu⟩ := Option.isSome_iff_exists.mp hvs
    obtain ⟨snaps', hrec⟩ := ih
      (done ++ [{ v with cdnUrl := some (cdnUrlFor imageId v.size) }])
      (snaps ++ [done ++ { v with cdnUrl := some (cdnUrlFor imageId v.size) } :: vs])
      (fun w hw => hcdn w (by simp [hw]))
      (fun w hw => hs3 w (by simp [hw]))
    rw [hu] at hrec
    refine ⟨snaps', ?_⟩
    rw [cdnPublishLoop]
    simp only [hu, hv]
    rw [hrec]
    simp
    exact hu.symm

theorem successBaseVariants_filePath {fileLen : Int} {dims : ImageDimensions} {imageId : String}
    {v : ImageVariant} (hv : v ∈ successBaseVariants fileLen dims imageId) :
    v.filePath = tempFilePath imageId v.size := by
  unfold successBaseVariants at hv
  rcases List.mem_append.mp hv with h | h
  · obtain ⟨s, -, rfl⟩ := List.mem_map.mp h
    rfl
  · rw [List.mem_singleton.mp h]

theorem processImage_ok_run (env : Env) (input : UploadInput) (imageId : String)
    (fs0 : FS) (meta0 : List (String × ImageMetadata))
    (hw1 : 100 ≤ env.dims.width) (hw2 : env.dims.width ≤ 8000)
    (hh1 : 100 ≤ env.dims.height) (hh2 : env.dims.height ≤ 8000)
    (hresize : ∀ s, env.resizeErr s = none)
    (horig : env.origWriteErr = none)
    (hfile : env.fileSaveErr = none)
    (hs3 : ∀ s, env.s3UploadErr s = none)
    (hcdn : ∀ s, env.cdnPublishErr s = none)
    (hmetaI : env.metaInjectFail = false)
    (hmetaP : env.metaPersistErr = none) :
    (processImage env input imageId fs0 meta0).result = .ok (successRecord env input imageId) ∧
    (processImage env input imageId fs0 meta0).meta =
      MetadataStorage.metaSet meta0 imageId (successRecord env input imageId) ∧
    (processImage env input imageId fs0 meta0).rollbackRan = false ∧
    (processImage env input imageId fs0 meta0).optimizeWarnings =
      (successBaseVariants input.fileLen env.dims imageId).filterMap
        (fun v => match optimize env v.size with | .error _ => some v.size | .ok _ => none) := by
  have hval : extractDimensions env = .ok env.dims := by
    unfold extractDimensions validateImageDimensions
    rw [if_neg (by rintro (h | h) <;> omega), if_neg (by rintro (h | h) <;> omega)]
  have hnil : failedResizes env input.fileLen env.dims imageId = [] :=
    (failedResizes_nil_iff env input.fileLen env.dims imageId).mpr (fun s _ => hresize s)
  have hsz : succeededSizes env = resizeSizes := by
    unfold succeededSizes
    rw [List.filter_eq_self]
    intro s _
    rw [hresize s]
    rfl
  have hres := resizeToAllSizes_success_case env input.fileLen env.dims imageId fs0 hnil horig
  have hbase : succeededVariants env input.fileLen env.dims imageId ++
      [{ size := .original, dimensions := env.dims, fileSize := input.fileLen,
         filePath := tempFilePath imageId .original }] =
      successBaseVariants input.fileLen env.dims imageId := by
    rw [succeededVariants_eq, hsz]
    rfl
  have hmemfs : ∀ v ∈ successBaseVariants input.fileLen env.dims imageId,
      v.filePath ∈ fsWrite (fsWrite (resizeWrittenFS env input.fileLen env.dims imageId fs0)
        (tempFilePath imageId .original)) (fileStoragePath (imageId ++ "-original")) := by
    intro v hv
    unfold successBaseVariants at hv
    rcases List.mem_append.mp hv with h | h
    · obtain ⟨s, hs, rfl⟩ := List.mem_map.mp h
      apply mem_fsWrite_of_mem
      apply mem_fsWrite_of_mem
      unfold resizeWrittenFS
      rw [mem_writeFold]
      right
      rw [succeededVariants_eq, hsz, List.map_map]
      exact List.mem_map.mpr ⟨s, hs, rfl⟩
    · rw [List.mem_singleton.mp h]
      apply mem_fsWrite_of_mem
      exact mem_fsWrite.mpr (Or.inr rfl)
  obtain ⟨snaps2, hloop⟩ := s3UploadLoop_ok env imageId
    (successBaseVariants input.fileLen env.dims imageId)
    (fsWrite (fsWrite (resizeWrittenFS env input.fileLen env.dims imageId fs0)
      (tempFilePath imageId .original)) (fileStoragePath (imageId ++ "-original")))
    [] [successBaseVariants input.fileLen env.dims imageId]
    (fun v _ => hs3 v.size) hmemfs
  obtain ⟨snaps3, hloop2⟩ := cdnPublishLoop_ok env imageId
    ((successBaseVariants input.fileLen env.dims imageId).map
      (fun v => { v with s3Url := some (s3UrlFor imageId v.size) }))
    [] snaps2
    (fun v _ => hcdn v.size)
    (by
      intro v hv
      obtain ⟨w, -, rfl⟩ := List.mem_map.mp hv
      rfl)
  have hsv : ∀ md : ImageMetadata, MetadataStorage.save env meta0 md =
      (MetadataStorage.metaSet meta0 md.id md, .ok ()) := by
    intro md
    unfold MetadataStorage.save
    rw [hmetaI, hmetaP]
    simp
  unfold processImage
  simp only [hval, hres, hbase, hfile, hloop, List.nil_append, hloop2, hsv]
  refine ⟨?_, ?_, ?_, ?_⟩ <;> first | rfl | trivial

theorem metaGet_metaSet (meta : List (String × ImageMetadata)) (id : String) (m : ImageMetadata) :
    MetadataStorage.metaGet (MetadataStorage.metaSet meta id m) id = some m := by
  unfold MetadataStorage.metaGet MetadataStorage.metaSet
  by_cases h : meta.any (fun p => p.1 = id)
  · rw [if_pos h]
    induction meta with
    | nil => simp at h
    | cons hd tl ih =>
      by_cases hd1 : hd.1 = id
      · simp [List.find?_cons, hd1]
      · rw [List.any_cons] at h
        have htl : tl.any (fun p => p.1 = id) := by
          rcases Bool.or_eq_true_iff.mp h with h' | h'
          · exact absurd (of_decide_eq_true h') hd1
          · exact h'
        simp only [List.map_cons, if_neg hd1, List.find?_cons]
        rw [decide_eq_false hd1]
        exact ih htl
  · rw [if_neg h]
    induction meta with
    | nil => simp
    | cons hd tl ih =>
      rw [List.any_cons] at h
      have hd1 : ¬ hd.1 = id := by
        intro hc
        exact h (Bool.or_eq_true_iff.mpr (Or.inl (decide_eq_true hc)))
      have htl : ¬ tl.any (fun p => p.1 = id) = true := by
        intro hc
        exact h (Bool.or_eq_true_iff.mpr (Or.inr hc))
      simp only [List.cons_append, List.find?_cons]
      rw [decide_eq_false hd1]
      exact ih htl

theorem cleanupFold_unlink_congr (env : Env) (u' : String → Option Err) :
    ∀ (paths : List String), (∀ p ∈ paths, u' p = env.unlinkErr p) →
    ∀ (acc : FS × List Err),
    paths.foldl
        (fun acc p =>
          match fsUnlink { env with unlinkErr := u' } acc.1 p with
          | .ok fs' => (fs', acc.2)
          | .error e => (acc.1, acc.2 ++ [e])) acc =
      paths.foldl
        (fun acc p =>
          match fsUnlink env acc.1 p with
          | .ok fs' => (fs', acc.2)
          | .error e => (acc.1, acc.2 ++ [e])) acc := by
  intro paths
  induction paths with
  | nil => intro _ acc; rfl
  | cons p tl ih =>
    intro hagree acc
    rw [List.foldl_cons, List.foldl_cons]
    have hun : fsUnlink { env with unlinkErr := u' } acc.1 p = fsUnlink env acc.1 p := by
      unfold fsUnlink
      have : ({ env with unlinkErr := u' } : Env).unlinkErr p = env.unlinkErr p :=
        hagree p (by simp)
      rw [this]
    rw [hun]
    exact ih (fun q hq => hagree q (by simp [hq])) _

theorem cleanupFiles_unlink_congr (env : Env) (u' : String → Option Err) (fs : FS)
    (paths : List String) (hagree : ∀ p ∈ paths, u' p = env.unlinkErr p) :
    cleanupFiles { env with unlinkErr := u' } fs paths = cleanupFiles env fs paths := by
  unfold cleanupFiles cleanupPass
  rw [cleanupFold_unlink_congr env u' paths hagree (fs, [])]

theorem resizeToAllSizes_unlink_congr (env : Env) (u' : String → Option Err)
    (fileLen : Int) (dims : ImageDimensions) (imageId : String) (fs0 : FS)
    (hu : ∀ s : ImageSize, u' (tempFilePath imageId s) = env.unlinkErr (tempFilePath imageId s)) :
    resizeToAllSizes { env with unlinkErr := u' } fileLen dims imageId fs0 =
      resizeToAllSizes env fileLen dims imageId fs0 := by
  unfold resizeToAllSizes
  dsimp only
  rw [show succeededVariants { env with unlinkErr := u' } fileLen dims imageId =
        succeededVariants env fileLen dims imageId from rfl,
      show failedResizes { env with unlinkErr := u' } fileLen dims imageId =
        failedResizes env fileLen dims imageId from rfl,
      show resizeTempFiles { env with unlinkErr := u' } fileLen dims imageId =
        resizeTempFiles env fileLen dims imageId from rfl,
      show resizeWrittenFS { env with unlinkErr := u' } fileLen dims imageId fs0 =
        resizeWrittenFS env fileLen dims imageId fs0 from rfl,
      cleanupFiles_unlink_congr env u' (resizeWrittenFS env fileLen dims imageId fs0)
        (resizeTempFiles env fileLen dims imageId) ?_]
  intro p hp
  rw [resizeTempFiles_eq] at hp
  obtain ⟨s, -, rfl⟩ := List.mem_map.mp hp
  exact hu s

theorem s3UploadLoop_env_congr (env : Env) (u' : String → Option Err) (imageId : String) :
    ∀ (rest : List ImageVariant) (fs : FS) (done : List ImageVariant)
      (snaps : List (List ImageVariant)),
    s3UploadLoop { env with unlinkErr := u' } imageId fs done rest snaps =
      s3UploadLoop env imageId fs done rest snaps := by
  intro rest
  induction rest with
  | nil => intro fs done snaps; rw [s3UploadLoop, s3UploadLoop]
  | cons v vs ih =>
    intro fs done snaps
    rw [s3UploadLoop, s3UploadLoop]
    have hup : S3Storage.uploadFile { env with unlinkErr := u' } imageId fs v =
        S3Storage.uploadFile env imageId fs v := rfl
    rw [hup]
    rcases S3Storage.uploadFile env imageId fs v with e | ⟨fs', v'⟩
    · rfl
    · exact ih fs' (done ++ [v']) (snaps ++ [done ++ v' :: vs])

theorem cdnPublishLoop_env_congr (env : Env) (u' : String → Option Err) (imageId : String) :
    ∀ (rest : List ImageVariant) (done : List ImageVariant)
      (snaps : List (List ImageVariant)),
    cdnPublishLoop { env with unlinkErr := u' } imageId done rest snaps =
      cdnPublishLoop env imageId done rest snaps := by
  intro rest
  induction rest with
  | nil => intro done snaps; rw [cdnPublishLoop, cdnPublishLoop]
  | cons v vs ih =>
    intro done snaps
    rw [cdnPublishLoop, cdnPublishLoop]
    dsimp only
    rcases v.s3Url with _ | u
    · exact ih (done ++ [v]) snaps
    · rcases env.cdnPublishErr v.size with _ | e
      · exact ih
          (done ++ [{ v with s3Url := some u, cdnUrl := some (cdnUrlFor imageId v.size) }])
          (snaps ++
            [done ++ { v with s3Url := some u, cdnUrl := some (cdnUrlFor imageId v.size) } :: vs])
      · rfl

theorem processImage_result (env : Env) (input : UploadInput) (imageId : String)
    (fs0 : FS) (meta0 : List (String × ImageMetadata)) :
    (processImage env input imageId fs0 meta0).result =
      processResult env input imageId fs0 meta0 := by
  unfold processImage processResult
  rcases hex : extractDimensions env with e | dims
  · simp only [hex]
  · simp only [hex]
    rcases hrz : resizeToAllSizes env input.fileLen dims imageId fs0 with ⟨fs1, res⟩
    rcases res with e | variants
    · simp only [hrz]
    · simp only [hrz]
      try dsimp only
      rcases hfs : env.fileSaveErr with _ | e
      · simp only [hfs]
        rcases hs3 : s3UploadLoop env imageId
            (fsWrite fs1 (fileStoragePath (imageId ++ "-original"))) [] variants [variants]
          with ⟨fs3, vars2, snaps2, err⟩
        rcases err with _ | e
        · simp only [hs3]
          rcases hcdn : cdnPublishLoop env imageId [] vars2 snaps2 with ⟨vars3, snaps3, err2⟩
          rcases err2 with _ | e
          · simp only [hcdn]
            try dsimp only
            rcases hsv : MetadataStorage.save env meta0
                { id := imageId, originalName := input.originalName, mimeType := input.mimeType,
                  fileSize := input.fileLen, dimensions := dims,
                  sizes := vars3.map (fun v => (v.size, v)), tags := input.tags,
                  userId := input.userId }
              with ⟨meta1, r⟩
            rcases r with e | u
            · simp only [hsv]
            · simp only [hsv]
          · simp only [hcdn]
        · simp only [hs3]
      · simp only [hfs]

/-- **C2 (amended).**  Compensation failures never replace or alter the
surfaced error: the value `processImage` returns is unchanged under any
change to the outcomes of the rollback deletes (every `fs.unlink`
outside the temp directory — in particular the file-storage delete and
any S3 delete).  The compensation errors are collected into a local
`rollbackErrors` list that is only logged, never attached to the thrown
error. -/
theorem processImage_compensation_never_replaces_error (env : Env)
    (u' : String → Option Err) (input : UploadInput) (imageId : String)
    (fs0 : FS) (meta0 : List (String × ImageMetadata))
    (hu : ∀ s : ImageSize, u' (tempFilePath imageId s) = env.unlinkErr (tempFilePath imageId s)) :
    (processImage { env with unlinkErr := u' } input imageId fs0 meta0).result =
      (processImage env input imageId fs0 meta0).result := by
  rw [processImage_result, processImage_result]
  have hres : ∀ (len : Int) (dims : ImageDimensions) (fs : FS),
      resizeToAllSizes { env with unlinkErr := u' } len dims imageId fs =
        resizeToAllSizes env len dims imageId fs :=
    fun len dims fs => resizeToAllSizes_unlink_congr env u' len dims imageId fs hu
  unfold processResult
  simp only [show extractDimensions { env with unlinkErr := u' } = extractDimensions env from rfl,
    hres, s3UploadLoop_env_congr env u' imageId, cdnPublishLoop_env_congr env u' imageId,
    show ({ env with unlinkErr := u' } : Env).fileSaveErr = env.fileSaveErr from rfl,
    show MetadataStorage.save { env with unlinkErr := u' } = MetadataStorage.save env from rfl]

/-- **C2 counterexample.**  The surfaced error value carries **no** list of
compensation errors: two CDN-failure runs that differ only in whether the
rollback's file-storage delete succeeds return **equal** error values, even
though the compensation errors encountered while unwinding differ (one vs
two).  The rollback errors live in a local array that is only logged. -/
theorem processImage_error_carries_no_compensation_list :
    (processImage (envCdnFailBadDelete ⟨2000, 1500⟩ "img1") sampleInput "img1" [] []).result =
        (processImage (envCdnFail ⟨2000, 1500⟩) sampleInput "img1" [] []).result ∧
      (processImage (envCdnFail ⟨2000, 1500⟩) sampleInput "img1" [] []).rollbackErrors.length
          = 1 ∧
      (processImage (envCdnFailBadDelete ⟨2000, 1500⟩ "img1") sampleInput "img1"
          [] []).rollbackErrors.length = 2 :=
  ⟨rfl, rfl, rfl⟩

/-- Witness for C2 (amended): the theorem applied to the CDN-failure run,
with the rollback delete of the stored original failing. -/
theorem processImage_compensation_never_replaces_error_witness :
    (∀ s : ImageSize,
        (envCdnFailBadDelete ⟨2000, 1500⟩ "img1").unlinkErr (tempFilePath "img1" s) =
          (envCdnFail ⟨2000, 1500⟩).unlinkErr (tempFilePath "img1" s)) ∧
    (processImage { envCdnFail ⟨2000, 1500⟩ with
          unlinkErr := (envCdnFailBadDelete ⟨2000, 1500⟩ "img1").unlinkErr }
        sampleInput "img1" [] []).result =
      (processImage (envCdnFail ⟨2000, 1500⟩) sampleInput "img1" [] []).result :=
  ⟨fun s => by cases s <;> rfl,
   processImage_compensation_never_replaces_error (envCdnFail ⟨2000, 1500⟩)
     (envCdnFailBadDelete ⟨2000, 1500⟩ "img1").unlinkErr sampleInput "img1" [] []
     (fun s => by cases s <;> rfl)⟩

/-- **C1 counterexample.**  S3 upload fails on the second variant
(`small`): the run returns the wrapped S3 error, compensation runs, yet the
S3 object written for the first variant (`thumbnail`) is **still present**
afterwards — no key written during the failing step is deleted
(`s3Uploaded` is set only after the whole loop succeeds, so the rollback
skips the S3 delete pass entirely). -/
theorem processImage_s3_rollback_missing :
    (processImage (envS3Fail ⟨2000, 1500⟩ .small) sampleInput "img1" [] []).result =
        .error (.storageError "Failed to upload to S3" (some "s3")
          (some (.storageError "Simulated S3 upload failure" (some "s3") none))) ∧
      s3ObjectPath "img1" .thumbnail ∈
        (processImage (envS3Fail ⟨2000, 1500⟩ .small) sampleInput "img1" [] []).fs ∧
      (processImage (envS3Fail ⟨2000, 1500⟩ .small) sampleInput "img1" [] []).rollbackRan
          = true :=
  ⟨rfl, by decide, rfl⟩

/-- **C1 (amended).**  No key written during a failing storage step is ever
deleted by compensation.  If the S3 upload step fails on variant `s₀`,
every S3 object written for the variants before `s₀` in upload order
remains on the store after the error is returned, compensation having run
without recording a single compensation error (the `s3Uploaded` flag is
still false, so the rollback never attempts the S3 deletes; only the
stored original and the temp files are removed).  And when a later step
fails with `s3Uploaded = true` (CDN failure), the rollback's S3 delete
pass dies immediately on a `ReferenceError` (`variants` is block-scoped
inside `try`), so **all five** S3 objects remain and the sole recorded
compensation error is that `ReferenceError`. -/
theorem processImage_failing_step_keys_remain (s₀ : ImageSize) :
    (∀ s ∈ variantOrder.takeWhile (fun s => s ≠ s₀),
        s3ObjectPath "img1" s ∈
          (processImage (envS3Fail ⟨2000, 1500⟩ s₀) sampleInput "img1" [] []).fs) ∧
      (processImage (envS3Fail ⟨2000, 1500⟩ s₀) sampleInput "img1" [] []).rollbackRan = true ∧
      (processImage (envS3Fail ⟨2000, 1500⟩ s₀) sampleInput "img1" [] []).rollbackErrors = [] ∧
      (∀ s : ImageSize, s3ObjectPath "img1" s ∈
          (processImage (envCdnFail ⟨2000, 1500⟩) sampleInput "img1" [] []).fs) ∧
      (processImage (envCdnFail ⟨2000, 1500⟩) sampleInput "img1" [] []).rollbackErrors =
        [.referenceError "variants"] := by
  cases s₀ <;>
    exact ⟨by decide, rfl, rfl, by intro s; cases s <;> decide, rfl⟩

/-- Witness for C1 (amended): the S3 step failing on the second variant
(`small`), the thumbnail object written just before is still present. -/
theorem processImage_failing_step_keys_remain_witness :
    (ImageSize.thumbnail ∈ variantOrder.takeWhile (fun s => s ≠ ImageSize.small)) ∧
      s3ObjectPath "img1" .thumbnail ∈
        (processImage (envS3Fail ⟨2000, 1500⟩ .small) sampleInput "img1" [] []).fs :=
  ⟨by decide, (processImage_failing_step_keys_remain .small).1 .thumbnail (by decide)⟩

theorem uploadFile_ok_shape {env : Env} {imageId : String} {fs : FS} {v : ImageVariant}
    {fs' : FS} {v' : ImageVariant}
    (h : S3Storage.uploadFile env imageId fs v = .ok (fs', v')) :
    v' = { v with s3Url := some (s3UrlFor imageId v.size) } := by
  unfold S3Storage.uploadFile at h
  cases he : env.s3UploadErr v.size with
  | none =>
    simp only [he] at h
    by_cases hm : v.filePath ∈ fs
    · rw [if_pos hm] at h
      simp at h
      exact h.2.symm
    · rw [if_neg hm] at h
      simp at h
  | some e =>
    simp only [he] at h
    simp at h

theorem resizeToAllSizes_ok_inv {env : Env} {fileLen : Int} {dims : ImageDimensions}
    {imageId : String} {fs0 : FS} {vs : List ImageVariant}
    (h : (resizeToAllSizes env fileLen dims imageId fs0).2 = .ok vs) :
    ∀ v ∈ vs, variantInv imageId v := by
  unfold resizeToAllSizes at h
  cases hf : failedResizes env fileLen dims imageId with
  | nil =>
    simp only [hf] at h
    cases ho : env.origWriteErr with
    | some e => simp only [ho] at h; simp at h
    | none =>
      simp only [ho] at h
      simp at h
      subst h
      intro v hv
      rcases List.mem_append.mp hv with h1 | h1
      · rw [succeededVariants_eq] at h1
        obtain ⟨s, -, rfl⟩ := List.mem_map.mp h1
        exact ⟨rfl, by intro hc; simp [resizeVariant] at hc⟩
      · rw [List.mem_singleton.mp h1]
        exact ⟨rfl, by intro hc; simp at hc⟩
  | cons f rest =>
    simp only [hf] at h
    rcases hcf : cleanupFiles env (resizeWrittenFS env fileLen dims imageId fs0)
        (resizeTempFiles env fileLen dims imageId) with ⟨fs2, ce⟩
    rw [hcf] at h
    cases ce <;> simp at h

theorem s3UploadLoop_inv (env : Env) (imageId : String) :
    ∀ (rest : List ImageVariant) (fs : FS) (done : List ImageVariant)
      (snaps : List (List ImageVariant)),
    (∀ v ∈ done, variantInv imageId v) →
    (∀ v ∈ rest, variantInv imageId v) →
    (∀ snap ∈ snaps, ∀ v ∈ snap, variantInv imageId v) →
    ((∀ snap ∈ (s3UploadLoop env imageId fs done rest snaps).2.2.1,
        ∀ v ∈ snap, variantInv imageId v) ∧
     (∀ v ∈ (s3UploadLoop env imageId fs done rest snaps).2.1, variantInv imageId v)) := by
  intro rest
  induction rest with
  | nil =>
    intro fs done snaps hdone _ hsnaps
    rw [s3UploadLoop]
    exact ⟨hsnaps, hdone⟩
  | cons v vs ih =>
    intro fs done snaps hdone hrest hsnaps
    have hvinv : variantInv imageId v := hrest v (by simp)
    rw [s3UploadLoop]
    rcases hcall : S3Storage.uploadFile env imageId fs v with e | ⟨fs', v'⟩
    · simp only
      refine ⟨hsnaps, ?_⟩
      intro w hw
      rcases List.mem_append.mp hw with h1 | h1
      · exact hdone w h1
      · exact hrest w h1
    · simp only
      have hv' : v' = { v with s3Url := some (s3UrlFor imageId v.size) } :=
        uploadFile_ok_shape hcall
      have hv'inv : variantInv imageId v' := by
        rw [hv']
        exact ⟨hvinv.1, fun _ => rfl⟩
      have hnewsnap : ∀ w ∈ done ++ v' :: vs, variantInv imageId w := by
        intro w hw
        rcases List.mem_append.mp hw with h1 | h1
        · exact hdone w h1
        · rcases List.mem_cons.mp h1 with rfl | h2
          · exact hv'inv
          · exact hrest w (by simp [h2])
      exact ih fs' (done ++ [v']) (snaps ++ [done ++ v' :: vs])
        (by
          intro w hw
          rcases List.mem_append.mp hw with h1 | h1
          · exact hdone w h1
          · rw [List.mem_singleton.mp h1]; exact hv'inv)
        (fun w hw => hrest w (by simp [hw]))
        (by
          intro snap hs
          rcases List.mem_append.mp hs with h1 | h1
          · exact hsnaps snap h1
          · rw [List.mem_singleton.mp h1]; exact hnewsnap)

theorem cdnPublishLoop_inv (env : Env) (imageId : String) :
    ∀ (rest : List ImageVariant) (done : List ImageVariant)
      (snaps : List (List ImageVariant)),
    (∀ v ∈ done, variantInv imageId v) →
    (∀ v ∈ rest, variantInv imageId v) →
    (∀ snap ∈ snaps, ∀ v ∈ snap, variantInv imageId v) →
    ((∀ snap ∈ (cdnPublishLoop env imageId done rest snaps).2.1,
        ∀ v ∈ snap, variantInv imageId v) ∧
     (∀ v ∈ (cdnPublishLoop env imageId done rest snaps).1, variantInv imageId v)) := by
  intro rest
  induction rest with
  | nil =>
    intro done snaps hdone _ hsnaps
    rw [cdnPublishLoop]
    exact ⟨hsnaps, hdone⟩
  | cons v vs ih =>
    intro done snaps hdone hrest hsnaps
    have hvinv : variantInv imageId v := hrest v (by simp)
    rw [cdnPublishLoop]
    cases hs3u : v.s3Url with
    | none =>
      simp only
      exact ih (done ++ [v]) snaps
        (by
          intro w hw
          rcases List.mem_append.mp hw with h1 | h1
          · exact hdone w h1
          · rw [List.mem_singleton.mp h1]; exact hvinv)
        (fun w hw => hrest w (by simp [hw]))
        hsnaps
    | some u =>
      simp only
      cases hpe : env.cdnPublishErr v.size with
      | some e =>
        simp only
        refine ⟨hsnaps, ?_⟩
        intro w hw
        rcases List.mem_append.mp hw with h1 | h1
        · exact hdone w h1
        · exact hrest w h1
      | none =>
        simp only
        have hv'inv : variantInv imageId
            { v with cdnUrl := some (cdnUrlFor imageId v.size) } :=
          ⟨hvinv.1, fun _ => by simp [hs3u]⟩
        have hnewsnap : ∀ w ∈ done ++ { v with cdnUrl := some (cdnUrlFor imageId v.size) } :: vs,
            variantInv imageId w := by
          intro w hw
          rcases List.mem_append.mp hw with h1 | h1
          · exact hdone w h1
          · rcases List.mem_cons.mp h1 with rfl | h2
            · exact hv'inv
            · exact hrest w (by simp [h2])
        rw [← hs3u]
        exact ih (done ++ [{ v with cdnUrl := some (cdnUrlFor imageId v.size) }])
          (snaps ++ [done ++ { v with cdnUrl := some (cdnUrlFor imageId v.size) } :: vs])
          (by
            intro w hw
            rcases List.mem_append.mp hw with h1 | h1
            · exact hdone w h1
            · rw [List.mem_singleton.mp h1]; exact hv'inv)
          (fun w hw => hrest w (by simp [hw]))
          (by
            intro snap hs
            rcases List.mem_append.mp hs with h1 | h1
            · exact hsnaps snap h1
            · rw [List.mem_singleton.mp h1]; exact hnewsnap)

/-- **C9.**  Throughout every pipeline run, every snapshot of the variant
list (after the resize and after every single handle assignment of the
S3-upload and CDN-publish loops) satisfies the handle-ordering
invariant: each variant's local handle (`filePath`) is populated from
creation with its temp path — so the object-store handle is never set
before the local handle exists — and the edge handle (`cdnUrl`) is never
set while the object-store handle (`s3Url`) is unset. -/
theorem processImage_handle_order (env : Env) (input : UploadInput) (imageId : String)
    (fs0 : FS) (meta0 : List (String × ImageMetadata)) :
    ∀ snap ∈ (processImage env input imageId fs0 meta0).variantTrace,
      ∀ v ∈ snap, variantInv imageId v := by
  unfold processImage
  split
  · simp
  next dims hex =>
  split
  · simp
  next fs1 variants hre =>
  have hvinv : ∀ v ∈ variants, variantInv imageId v :=
    resizeToAllSizes_ok_inv (by rw [hre])
  have hsnap1 : ∀ snap ∈ [variants], ∀ v ∈ snap, variantInv imageId v := by
    intro snap hs
    rw [List.mem_singleton.mp hs]
    exact hvinv
  split
  · -- file-storage save fails: the trace is the single resize snapshot
    simp only
    exact hsnap1
  next hfile =>
  have hs3res := s3UploadLoop_inv env imageId variants
    (fsWrite fs1 (fileStoragePath (imageId ++ "-original"))) [] [variants]
    (by intro w hw; simp at hw) hvinv hsnap1
  dsimp only
  split
  next fs3 vars2 snaps2 err hloop =>
    rw [hloop] at hs3res
    simp only
    exact hs3res.1
  next fs3 vars2 snaps2 hloop =>
  rw [hloop] at hs3res
  have hcdnres := cdnPublishLoop_inv env imageId vars2 [] snaps2
    (by intro w hw; simp at hw) hs3res.2 hs3res.1
  split
  next vars3 snaps3 err hloop2 =>
    rw [hloop2] at hcdnres
    simp only
    exact hcdnres.1
  next vars3 snaps3 hloop2 =>
  rw [hloop2] at hcdnres
  split
  · simp only
    exact hcdnres.1
  · simp only
    exact hcdnres.1

/-- **C5.**  For every successful run of the pipeline, the returned
record contains every size class of the fixed set plus the original (5
variants, never a partially populated map), every variant's location is
populated at all three storage tiers (local temp path, S3 URL, CDN URL),
and `MetadataStorage.get(record.id)` afterwards returns the identical
record. -/
theorem processImage_success_complete (env : Env) (input : UploadInput) (imageId : String)
    (fs0 : FS) (meta0 : List (String × ImageMetadata))
    (hw1 : 100 ≤ env.dims.width) (hw2 : env.dims.width ≤ 8000)
    (hh1 : 100 ≤ env.dims.height) (hh2 : env.dims.height ≤ 8000)
    (hresize : ∀ s, env.resizeErr s = none)
    (horig : env.origWriteErr = none)
    (hfile : env.fileSaveErr = none)
    (hs3 : ∀ s, env.s3UploadErr s = none)
    (hcdn : ∀ s, env.cdnPublishErr s = none)
    (hmetaI : env.metaInjectFail = false)
    (hmetaP : env.metaPersistErr = none) :
    ∃ rec, (processImage env input imageId fs0 meta0).result = .ok rec ∧
      rec.id = imageId ∧
      rec.sizes.map Prod.fst = variantOrder ∧
      (∀ p ∈ rec.sizes, p.2.filePath = tempFilePath imageId p.1 ∧
        p.2.s3Url = some (s3UrlFor imageId p.1) ∧
        p.2.cdnUrl = some (cdnUrlFor imageId p.1)) ∧
      MetadataStorage.metaGet (processImage env input imageId fs0 meta0).meta imageId = some rec := by
  obtain ⟨h1, h2, -, -⟩ := processImage_ok_run env input imageId fs0 meta0
    hw1 hw2 hh1 hh2 hresize horig hfile hs3 hcdn hmetaI hmetaP
  refine ⟨successRecord env input imageId, h1, rfl, ?_, ?_, ?_⟩
  · simp [successRecord, successVariants, successBaseVariants, variantOrder, List.map_map,
      List.map_append, resizeSizes, resizeVariant]
  · intro p hp
    simp only [successRecord] at hp
    obtain ⟨v, hv, rfl⟩ := List.mem_map.mp hp
    unfold successVariants at hv
    obtain ⟨v1, hv1, rfl⟩ := List.mem_map.mp hv
    obtain ⟨w, hw, rfl⟩ := List.mem_map.mp hv1
    refine ⟨?_, rfl, rfl⟩
    show w.filePath = tempFilePath imageId w.size
    exact successBaseVariants_filePath hw
  · rw [h2, metaGet_metaSet]

/-- Witness for C9: in the all-success run the first snapshot is the
resize output, whose first variant (the thumbnail, no handles beyond the
local path yet) satisfies the ordering invariant. -/
theorem processImage_handle_order_witness :
    (successBaseVariants 2048 ⟨2000, 1500⟩ "img1" ∈
        (processImage (envOk ⟨2000, 1500⟩) sampleInput "img1" [] []).variantTrace) ∧
      (resizeVariant 2048 .thumbnail ⟨2000, 1500⟩ "img1" ∈
          successBaseVariants 2048 ⟨2000, 1500⟩ "img1") ∧
      variantInv "img1" (resizeVariant 2048 .thumbnail ⟨2000, 1500⟩ "img1") :=
  ⟨List.Mem.head _, List.Mem.head _,
   processImage_handle_order (envOk ⟨2000, 1500⟩) sampleInput "img1" [] []
     (successBaseVariants 2048 ⟨2000, 1500⟩ "img1") (List.Mem.head _)
     (resizeVariant 2048 .thumbnail ⟨2000, 1500⟩ "img1") (List.Mem.head _)⟩

/-- Witness for C5 at the all-success environment with a 2000×1500
source, matching the spec's example scenario. -/
theorem processImage_success_complete_witness :
    100 ≤ (envOk ⟨2000, 1500⟩).dims.width ∧ (envOk ⟨2000, 1500⟩).dims.width ≤ 8000 ∧
    100 ≤ (envOk ⟨2000, 1500⟩).dims.height ∧ (envOk ⟨2000, 1500⟩).dims.height ≤ 8000 ∧
    (∀ s, (envOk ⟨2000, 1500⟩).resizeErr s = none) ∧
    (∃ rec, (processImage (envOk ⟨2000, 1500⟩) sampleInput "img1" [] []).result = .ok rec ∧
      rec.id = "img1" ∧
      rec.sizes.map Prod.fst = variantOrder ∧
      (∀ p ∈ rec.sizes, p.2.filePath = tempFilePath "img1" p.1 ∧
        p.2.s3Url = some (s3UrlFor "img1" p.1) ∧
        p.2.cdnUrl = some (cdnUrlFor "img1" p.1)) ∧
      MetadataStorage.metaGet (processImage (envOk ⟨2000, 1500⟩) sampleInput "img1" [] []).meta
        "img1" = some rec) :=
  ⟨by decide, by decide, by decide, by decide, fun _ => rfl,
   processImage_success_complete (envOk ⟨2000, 1500⟩) sampleInput "img1" [] []
     (by decide) (by decide) (by decide) (by decide)
     (fun _ => rfl) rfl rfl (fun _ => rfl) (fun _ => rfl) rfl rfl⟩

/-- **C7 counterexample.**  A run in which optimization fails for exactly
one of the variants returns a record **equal** to the record of the run
in which every optimization succeeds: nothing in the returned record
flags the affected variant as un-optimized (the failure is only logged —
the model records it as a console warning, outside the record). -/
theorem processImage_no_unoptimized_flag :
    (processImage (envOptimizeFail ⟨2000, 1500⟩ .small) sampleInput "img1" [] []).result =
      (processImage (envOk ⟨2000, 1500⟩) sampleInput "img1" [] []).result ∧
    (processImage (envOptimizeFail ⟨2000, 1500⟩ .small) sampleInput "img1" [] []).optimizeWarnings =
      [.small] ∧
    (processImage (envOk ⟨2000, 1500⟩) sampleInput "img1" [] []).optimizeWarnings = [] :=
  ⟨rfl, rfl, rfl⟩

/-- **C7 (amended).**  Optimization failure is non-fatal: a run in which
`optimize` fails for exactly one variant does not abort and does not
trigger compensation — it completes with all five variants present in
the final record and the failure only logged as a warning; the affected
variant is **not** flagged in the record, which is identical to the
record of a run whose optimizations all succeed. -/
theorem processImage_optimize_nonfatal (dims : ImageDimensions) (s₀ : ImageSize)
    (input : UploadInput) (imageId : String) (fs0 : FS) (meta0 : List (String × ImageMetadata))
    (hw1 : 100 ≤ dims.width) (hw2 : dims.width ≤ 8000)
    (hh1 : 100 ≤ dims.height) (hh2 : dims.height ≤ 8000) :
    (processImage (envOptimizeFail dims s₀) input imageId fs0 meta0).result =
      .ok (successRecord (envOptimizeFail dims s₀) input imageId) ∧
    (processImage (envOptimizeFail dims s₀) input imageId fs0 meta0).rollbackRan = false ∧
    (processImage (envOptimizeFail dims s₀) input imageId fs0 meta0).optimizeWarnings = [s₀] ∧
    (successRecord (envOptimizeFail dims s₀) input imageId).sizes.map Prod.fst = variantOrder ∧
    (processImage (envOptimizeFail dims s₀) input imageId fs0 meta0).result =
      (processImage (envOk dims) input imageId fs0 meta0).result := by
  obtain ⟨h1, -, h3, h4⟩ := processImage_ok_run (envOptimizeFail dims s₀) input imageId fs0 meta0
    hw1 hw2 hh1 hh2 (fun _ => rfl) rfl rfl (fun _ => rfl) (fun _ => rfl) rfl rfl
  obtain ⟨h1o, -, -, -⟩ := processImage_ok_run (envOk dims) input imageId fs0 meta0
    hw1 hw2 hh1 hh2 (fun _ => rfl) rfl rfl (fun _ => rfl) (fun _ => rfl) rfl rfl
  refine ⟨h1, h3, ?_, ?_, ?_⟩
  · rw [h4]
    cases s₀ <;> rfl
  · simp [successRecord, successVariants, successBaseVariants, variantOrder, List.map_map,
      List.map_append, resizeSizes, resizeVariant]
  · rw [h1, h1o]
    rfl

/-- Witness for C7 (amended) with a 2000×1500 source and the `small`
variant's optimization failing. -/
theorem processImage_optimize_nonfatal_witness :
    (100 : Int) ≤ 2000 ∧ (2000 : Int) ≤ 8000 ∧ (100 : Int) ≤ 1500 ∧ (1500 : Int) ≤ 8000 ∧
    ((processImage (envOptimizeFail ⟨2000, 1500⟩ .small) sampleInput "img1" [] []).result =
        .ok (successRecord (envOptimizeFail ⟨2000, 1500⟩ .small) sampleInput "img1") ∧
     (processImage (envOptimizeFail ⟨2000, 1500⟩ .small) sampleInput "img1" [] []).rollbackRan = false ∧
     (processImage (envOptimizeFail ⟨2000, 1500⟩ .small) sampleInput "img1" [] []).optimizeWarnings =
       [.small] ∧
     (successRecord (envOptimizeFail ⟨2000, 1500⟩ .small) sampleInput "img1").sizes.map Prod.fst =
       variantOrder ∧
     (processImage (envOptimizeFail ⟨2000, 1500⟩ .small) sampleInput "img1" [] []).result =
       (processImage (envOk ⟨2000, 1500⟩) sampleInput "img1" [] []).result) :=
  ⟨by decide, by decide, by decide, by decide,
   processImage_optimize_nonfatal ⟨2000, 1500⟩ .small sampleInput "img1" [] []
     (by decide) (by decide) (by decide) (by decide)⟩

theorem mathRound_le_of_le {q : ℚ} {z : ℤ} (h : q ≤ (z : ℚ)) : mathRound q ≤ z := by
  have h1 : (mathRound q : ℚ) ≤ q + 1 / 2 := Int.floor_le _
  have h2 : (mathRound q : ℚ) < (z : ℚ) + 1 := by linarith
  have h3 : mathRound q < z + 1 := by exact_mod_cast h2
  exact Int.lt_add_one_iff.mp h3

theorem mathRound_intCast (z : ℤ) : mathRound (z : ℚ) = z := by
  have h0 : ⌊(1 / 2 : ℚ)⌋ = 0 := by
    rw [Int.floor_eq_zero_iff]
    constructor <;> norm_num
  unfold mathRound
  rw [Int.floor_int_add, h0, add_zero]

theorem abs_mathRound_sub_le (q : ℚ) : |(mathRound q : ℚ) - q| ≤ 1 / 2 := by
  have h1 : (mathRound q : ℚ) ≤ q + 1 / 2 := Int.floor_le _
  have h2 : q + 1 / 2 - 1 < (mathRound q : ℚ) := Int.sub_one_lt_floor _
  rw [abs_le]
  constructor <;> linarith

/-- **C8.** For every source dimensions and every target size class,
`calculateScaledDimensions` is a contain-fit that never errors (it is a
total function on positive dimensions): the computed width and height
never exceed either the source's or the target's corresponding bound, a
target exceeding the source is clamped to source size, and the source's
aspect ratio is preserved up to integer rounding
(`2·|height·origWidth − width·origHeight| ≤ max(origWidth, origHeight)`),
fitting on the longer axis. -/
theorem calculateScaledDimensions_contain_fit (original target : ImageDimensions)
    (how : 0 < original.width) (hoh : 0 < original.height)
    (htw : 0 < target.width) (hth : 0 < target.height) :
    (calculateScaledDimensions original target).width ≤ original.width ∧
    (calculateScaledDimensions original target).width ≤ target.width ∧
    (calculateScaledDimensions original target).height ≤ original.height ∧
    (calculateScaledDimensions original target).height ≤ target.height ∧
    (original.width ≤ target.width → original.height ≤ target.height →
      calculateScaledDimensions original target = ⟨original.width, original.height⟩) ∧
    2 * |(calculateScaledDimensions original target).height * original.width -
          (calculateScaledDimensions original target).width * original.height| ≤
      max original.width original.height := by
  obtain ⟨ow, oh⟩ := original
  obtain ⟨tw, th⟩ := target
  simp only at how hoh htw hth
  have how' : (0 : ℚ) < (ow : ℚ) := by exact_mod_cast how
  have hoh' : (0 : ℚ) < (oh : ℚ) := by exact_mod_cast hoh
  have htw' : (0 : ℚ) < (tw : ℚ) := by exact_mod_cast htw
  have hth' : (0 : ℚ) < (th : ℚ) := by exact_mod_cast hth
  unfold calculateScaledDimensions
  simp only
  split
  case isTrue hcond =>
    -- original is wider: fit to width
    have hcross : (tw : ℚ) * oh < (ow : ℚ) * th := by
      rw [div_lt_div_iff hth' hoh'] at hcond
      exact hcond
    set w : ℤ := min ow tw with hw
    have hwow : w ≤ ow := min_le_left _ _
    have hwtw : w ≤ tw := min_le_right _ _
    have hwpos : 0 < w := lt_min how htw
    have hx : ((w : ℚ)) / ((ow : ℚ) / (oh : ℚ)) = (w : ℚ) * oh / ow :=
      div_div_eq_mul_div _ _ _
    have hxoh : (w : ℚ) * oh / ow ≤ (oh : ℚ) := by
      rw [div_le_iff how']
      have : (w : ℚ) ≤ (ow : ℚ) := by exact_mod_cast hwow
      nlinarith
    have hxth : (w : ℚ) * oh / ow ≤ (th : ℚ) := by
      rw [div_le_iff how']
      have hwq : (w : ℚ) ≤ (tw : ℚ) := by exact_mod_cast hwtw
      nlinarith
    refine ⟨hwow, hwtw, ?_, ?_, ?_, ?_⟩
    · exact mathRound_le_of_le (by rw [hx]; exact hxoh)
    · exact mathRound_le_of_le (by rw [hx]; exact hxth)
    · intro h1 h2
      have hwelem : w = ow := min_eq_left h1
      have : ((w : ℚ)) / ((ow : ℚ) / (oh : ℚ)) = ((oh : ℤ) : ℚ) := by
        rw [hwelem]
        field_simp
      rw [this, mathRound_intCast, hwelem]
    · set hgt := mathRound ((w : ℚ) / ((ow : ℚ) / (oh : ℚ))) with hh
      have habs : |(hgt : ℚ) - (w : ℚ) * oh / ow| ≤ 1 / 2 := by
        rw [hh, ← hx]
        exact abs_mathRound_sub_le _
      have hkey : ((hgt * ow - w * oh : ℤ) : ℚ) = ((hgt : ℚ) - (w : ℚ) * oh / ow) * ow := by
        field_simp
      have hq : 2 * |((hgt * ow - w * oh : ℤ) : ℚ)| ≤ (ow : ℚ) := by
        rw [hkey, abs_mul, abs_of_pos how']
        nlinarith [abs_nonneg ((hgt : ℚ) - (w : ℚ) * oh / ow)]
      have hz : 2 * |hgt * ow - w * oh| ≤ ow := by exact_mod_cast hq
      exact le_trans hz (le_max_left _ _)
  case isFalse hcond =>
    -- original is taller (or equal ratio): fit to height
    have hcross : (ow : ℚ) * th ≤ (tw : ℚ) * oh := by
      rw [not_lt, div_le_div_iff hoh' hth'] at hcond
      exact hcond
    set hgt : ℤ := min oh th with hhgt
    have hhoh : hgt ≤ oh := min_le_left _ _
    have hhth : hgt ≤ th := min_le_right _ _
    have hx : ((hgt : ℚ)) * ((ow : ℚ) / (oh : ℚ)) = (hgt : ℚ) * ow / oh := by
      ring
    have hxow : (hgt : ℚ) * ow / oh ≤ (ow : ℚ) := by
      rw [div_le_iff hoh']
      have : (hgt : ℚ) ≤ (oh : ℚ) := by exact_mod_cast hhoh
      nlinarith
    have hxtw : (hgt : ℚ) * ow / oh ≤ (tw : ℚ) := by
      rw [div_le_iff hoh']
      have hhq : (hgt : ℚ) ≤ (th : ℚ) := by exact_mod_cast hhth
      nlinarith
    refine ⟨?_, ?_, hhoh, hhth, ?_, ?_⟩
    · exact mathRound_le_of_le (by rw [hx]; exact hxow)
    · exact mathRound_le_of_le (by rw [hx]; exact hxtw)
    · intro h1 h2
      have hhelem : hgt = oh := min_eq_left h2
      have : ((hgt : ℚ)) * ((ow : ℚ) / (oh : ℚ)) = ((ow : ℤ) : ℚ) := by
        rw [hhelem]
        field_simp
      rw [this, mathRound_intCast, hhelem]
    · set w := mathRound ((hgt : ℚ) * ((ow : ℚ) / (oh : ℚ))) with hw
      have habs : |(w : ℚ) - (hgt : ℚ) * ow / oh| ≤ 1 / 2 := by
        rw [hw, ← hx]
        exact abs_mathRound_sub_le _
      have hkey : ((hgt * ow - w * oh : ℤ) : ℚ) = -(((w : ℚ) - (hgt : ℚ) * ow / oh) * oh) := by
        field_simp
      have hq : 2 * |((hgt * ow - w * oh : ℤ) : ℚ)| ≤ (oh : ℚ) := by
        rw [hkey, abs_neg, abs_mul, abs_of_pos hoh']
        nlinarith [abs_nonneg ((w : ℚ) - (hgt : ℚ) * ow / oh)]
      have hz : 2 * |hgt * ow - w * oh| ≤ oh := by exact_mod_cast hq
      exact le_trans hz (le_max_right _ _)

/-- Witness for C8 at the spec's example: a 2000×1500 source and the
thumbnail target 150×150. -/
theorem calculateScaledDimensions_contain_fit_witness :
    0 < (ImageDimensions.mk 2000 1500).width ∧ 0 < (ImageDimensions.mk 2000 1500).height ∧
    0 < (ImageDimensions.mk 150 150).width ∧ 0 < (ImageDimensions.mk 150 150).height ∧
    ((calculateScaledDimensions ⟨2000, 1500⟩ ⟨150, 150⟩).width ≤ (ImageDimensions.mk 2000 1500).width ∧
     (calculateScaledDimensions ⟨2000, 1500⟩ ⟨150, 150⟩).width ≤ (ImageDimensions.mk 150 150).width ∧
     (calculateScaledDimensions ⟨2000, 1500⟩ ⟨150, 150⟩).height ≤ (ImageDimensions.mk 2000 1500).height ∧
     (calculateScaledDimensions ⟨2000, 1500⟩ ⟨150, 150⟩).height ≤ (ImageDimensions.mk 150 150).height ∧
     ((ImageDimensions.mk 2000 1500).width ≤ (ImageDimensions.mk 150 150).width →
      (ImageDimensions.mk 2000 1500).height ≤ (ImageDimensions.mk 150 150).height →
       calculateScaledDimensions ⟨2000, 1500⟩ ⟨150, 150⟩ = ⟨(ImageDimensions.mk 2000 1500).width, (ImageDimensions.mk 2000 1500).height⟩) ∧
     2 * |(calculateScaledDimensions ⟨2000, 1500⟩ ⟨150, 150⟩).height * (ImageDimensions.mk 2000 1500).width -
           (calculateScaledDimensions ⟨2000, 1500⟩ ⟨150, 150⟩).width * (ImageDimensions.mk 2000 1500).height| ≤
       max (ImageDimensions.mk 2000 1500).width (ImageDimensions.mk 2000 1500).height) :=
  ⟨by decide, by decide, by decide, by decide,
   calculateScaledDimensions_contain_fit ⟨2000, 1500⟩ ⟨150, 150⟩
     (by decide) (by decide) (by decide) (by decide)⟩

end EffectDemo
